import Mathlib

/-!
# zTC1 `http_server/app_httpd.c`: handlers, route table and start/stop

A shallow embedding of `src/TC1/http_server/app_httpd.c`.

The C file is glue code: every handler is a straight-line sequence of calls to
collaborators (the httpd runtime, the allocator, the device actions) joined by
`require_noerr` jumps.  The embedding keeps that shape:

* the process state is a `World`: the file-level globals, the memory cells the
  handlers touch, and the trace of collaborator calls made so far;
* the collaborators are an `Env`: for each external function, its result as a
  function of the history of calls (and of its arguments where they matter);
* every C function is a Lean function `World → result × World` whose body
  follows the C statements one by one; a `goto label` becomes a call of the
  local continuation of that label.
-/

namespace TC1

/-! ## Basic C types -/

/-- The status type `OSStatus` of the SDK, a signed integer. -/
abbrev OSStatus := Int

/-- The success code `kNoErr`. -/
def kNoErr : OSStatus := 0

/-- A pointer value is a machine address; `NULL` is address `0`. -/
abbrev Addr := Nat

/-- The null pointer. -/
def NULL : Addr := 0

/-- Modelled from the spec: the first response line passed to the header
writer, of which the spec fixes only the status code.  The macro
`HTTP_RES_200` of `httpd.h` is missing from the sources. -/
structure StatusLine where
  code : Nat
deriving DecidableEq, Repr

/-- Modelled from the spec: the status line of a `200` response (macro
`HTTP_RES_200`, declared in the SDK header `httpd.h`). -/
def HTTP_RES_200 : StatusLine := ⟨200⟩

/-- The content type of the index page, `#define HTTP_CONTENT_HTML_ZIP`. -/
def HTTP_CONTENT_HTML_ZIP : String := "text/html\r\nContent-Encoding: gzip"

/-- The part of `httpd_request_t` (declared in `httpd.h`) that the handlers
read: the socket of the connection. -/
structure httpd_request_t where
  sock : Int
deriving DecidableEq, Repr

/-- The five handlers of the file, as values of the function pointers stored
in the route table. -/
inductive Handler where
  | http_get_index_page
  | http_get_socket_status
  | http_set_socket_status
  | http_get_wifi_config
  | http_set_wifi_config
deriving DecidableEq, Repr

/-- One entry of the route table, `struct httpd_wsgi_call`.  The declaration is
in `httpd.h`; the fields are taken in the order of the initialisers of
`g_app_handlers`: path, header flags, an integer, and four handler slots
(GET, POST and the two further ones, which the spec calls the delete and the
extra handler). -/
structure httpd_wsgi_call where
  uri : String
  hdr_fields : Nat
  http_flags : Nat
  get_handler : Option Handler
  set_handler : Option Handler
  put_handler : Option Handler
  delete_handler : Option Handler
deriving DecidableEq, Repr

/-! ## Collaborator calls -/

/-- A call of a collaborator, with its arguments and its result.  Where an
argument is a pointer that the callee reads, the bytes it points to at the
time of the call are recorded next to it. -/
inductive Call where
  /-- Call `custom_log("apphttpd", msg)` through `app_httpd_log`. -/
  | log (msg : String)
  /-- Call `malloc(size)` returning `ret`. -/
  | malloc (size : Nat) (ret : Addr)
  /-- Call `free(p)`. -/
  | free (p : Addr)
  /-- Call `httpd_get_data(req, buf, size)` leaving `content` in the buffer. -/
  | httpd_get_data (buf : Addr) (size : Nat) (content : String) (ret : OSStatus)
  /-- Call `httpd_get_tag_from_post_data(inbuf, tag, val, val_len)` writing
  `out` to `val` (`none`: `val` is left as it was). -/
  | httpd_get_tag_from_post_data (inbuf : Addr) (tag : String) (val : Addr)
      (val_len : Nat) (out : Option String) (ret : OSStatus)
  /-- Call `set_socket_status(buf)`; `content` is what `buf` holds. -/
  | set_socket_status (buf : Addr) (content : String)
  /-- Call `wifi_connect(ssid, key)`; the two strings are what the buffers hold. -/
  | wifi_connect (ssid : Addr) (key : Addr) (ssid_str : String) (key_str : String)
  /-- Call `get_socket_status()` returning a pointer to the string `ret`. -/
  | get_socket_status (ret : String)
  /-- Call `httpd_send_all_header(req, first_line, body_length, content_type)`. -/
  | httpd_send_all_header (first_line : StatusLine) (body_length : Nat)
      (content_type : String) (ret : OSStatus)
  /-- Call `httpd_send_body(sock, data, len)`; `data` is the object pointed to. -/
  | httpd_send_body (sock : Int) (data : String) (len : Nat) (ret : OSStatus)
  /-- Call `httpd_init()`. -/
  | httpd_init (ret : OSStatus)
  /-- Call `httpd_start()`. -/
  | httpd_start (ret : OSStatus)
  /-- Call `httpd_shutdown()`; its result is discarded by the caller. -/
  | httpd_shutdown
  /-- Call `httpd_stop()`. -/
  | httpd_stop (ret : OSStatus)
  /-- Call `httpd_register_wsgi_handlers(table, count)`. -/
  | httpd_register_wsgi_handlers (table : List httpd_wsgi_call) (count : Nat) (ret : Int)
deriving DecidableEq, Repr

/-- The behaviour of the collaborators.  Each result may depend on the whole
history of calls, so a collaborator may answer differently each time. -/
structure Env where
  /-- The pointer returned by `malloc(size)`. -/
  malloc : List Call → Nat → Addr
  /-- The result of `httpd_get_data` and the bytes it leaves in the buffer. -/
  httpd_get_data : List Call → Nat → OSStatus × String
  /-- The result of `httpd_get_tag_from_post_data` on a buffer holding the
  given bytes, for the given tag and capacity, and the bytes it writes to the
  destination (`none`: the destination is left as it was). -/
  httpd_get_tag_from_post_data : List Call → String → String → Nat → OSStatus × Option String
  /-- The status string that `get_socket_status()` produces, given the
  contents of the global `socket_status` before the call. -/
  get_socket_status : List Call → String → String
  /-- The result of `httpd_send_all_header`. -/
  httpd_send_all_header : List Call → StatusLine → Nat → String → OSStatus
  /-- The result of `httpd_send_body`. -/
  httpd_send_body : List Call → Int → String → Nat → OSStatus
  /-- The result of `httpd_init`. -/
  httpd_init : List Call → OSStatus
  /-- The result of `httpd_start`. -/
  httpd_start : List Call → OSStatus
  /-- The result of `httpd_stop`. -/
  httpd_stop : List Call → OSStatus
  /-- The result of `httpd_register_wsgi_handlers`. -/
  httpd_register_wsgi_handlers : List Call → List httpd_wsgi_call → Nat → Int

/-- The process state: the two file-level flags, the global buffer
`socket_status` (declared in `user_gpio.h`), the strings held by the memory
blocks, and the trace of collaborator calls. -/
structure World where
  is_http_init : Bool
  is_handlers_registered : Bool
  socket_status : String
  mem : Addr → String
  trace : List Call

/-- The state at process start: both flags are `false` (static storage),
nothing has been called. -/
def World.init : World :=
  { is_http_init := false, is_handlers_registered := false,
    socket_status := "", mem := fun _ => "", trace := [] }

/-- Append a call to the trace. -/
def emit (c : Call) (w : World) : World :=
  { w with trace := w.trace ++ [c] }

/-- Store a string in the block at `p`. -/
def store (m : Addr → String) (p : Addr) (s : String) : Addr → String :=
  fun a => if a = p then s else m a

/-- The C `strlen` of a string. -/
def strlen (s : String) : Nat := s.length

/-- The C call `app_httpd_log(M)`. -/
def app_httpd_log (msg : String) (w : World) : World :=
  emit (.log msg) w

/-- The C call `malloc(size)`. -/
def malloc (E : Env) (size : Nat) (w : World) : Addr × World :=
  let p := E.malloc w.trace size
  (p, emit (.malloc size p) w)

/-- The C call `free(p)`. -/
def free (p : Addr) (w : World) : World :=
  emit (.free p) w

/-- The C call `httpd_get_data(req, buf, size)`: the runtime fills `buf`. -/
def httpd_get_data (E : Env) (_req : httpd_request_t) (buf : Addr) (size : Nat)
    (w : World) : OSStatus × World :=
  let r := E.httpd_get_data w.trace size
  (r.1, emit (.httpd_get_data buf size r.2 r.1) { w with mem := store w.mem buf r.2 })

/-- The C call `httpd_get_tag_from_post_data(inbuf, tag, val, val_len)`: the runtime
reads `inbuf` and fills `val`. -/
def httpd_get_tag_from_post_data (E : Env) (inbuf : Addr) (tag : String) (val : Addr)
    (val_len : Nat) (w : World) : OSStatus × World :=
  let r := E.httpd_get_tag_from_post_data w.trace (w.mem inbuf) tag val_len
  (r.1, emit (.httpd_get_tag_from_post_data inbuf tag val val_len r.2 r.1)
          { w with mem := match r.2 with
                          | some s => store w.mem val s
                          | none => w.mem })

/-- The C call `set_socket_status(buf)`. -/
def set_socket_status (buf : Addr) (w : World) : World :=
  emit (.set_socket_status buf (w.mem buf)) w

/-- The C call `wifi_connect(ssid, key)`. -/
def wifi_connect (ssid key : Addr) (w : World) : World :=
  emit (.wifi_connect ssid key (w.mem ssid) (w.mem key)) w

/-- Modelled from the spec: the collaborator `read_current_status() -> string`
of section 6, in C `get_socket_status()` of `user_gpio.c`, which is missing
from the sources together with the global buffer `socket_status` it fills.
The spec gives the collaborator one result, the current status string; the
model keeps that string in `socket_status` and returns a pointer to it, so
that the pointer `status` and the buffer `socket_status`, which the GET
handlers use side by side, name the same bytes. -/
def get_socket_status (E : Env) (w : World) : String × World :=
  let s := E.get_socket_status w.trace w.socket_status
  (s, emit (.get_socket_status s) { w with socket_status := s })

/-- The C call `httpd_send_all_header(req, first_line, body_length, content_type)`. -/
def httpd_send_all_header (E : Env) (_req : httpd_request_t) (first_line : StatusLine)
    (body_length : Nat) (content_type : String) (w : World) : OSStatus × World :=
  let r := E.httpd_send_all_header w.trace first_line body_length content_type
  (r, emit (.httpd_send_all_header first_line body_length content_type r) w)

/-- The C call `httpd_send_body(sock, data, len)`. -/
def httpd_send_body (E : Env) (sock : Int) (data : String) (len : Nat)
    (w : World) : OSStatus × World :=
  let r := E.httpd_send_body w.trace sock data len
  (r, emit (.httpd_send_body sock data len r) w)

/-- The C call `httpd_init()`. -/
def httpd_init (E : Env) (w : World) : OSStatus × World :=
  let r := E.httpd_init w.trace
  (r, emit (.httpd_init r) w)

/-- The C call `httpd_start()`. -/
def httpd_start (E : Env) (w : World) : OSStatus × World :=
  let r := E.httpd_start w.trace
  (r, emit (.httpd_start r) w)

/-- The C call `httpd_shutdown()`. -/
def httpd_shutdown (w : World) : World :=
  emit .httpd_shutdown w

/-- The C call `httpd_stop()`. -/
def httpd_stop (E : Env) (w : World) : OSStatus × World :=
  let r := E.httpd_stop w.trace
  (r, emit (.httpd_stop r) w)

/-- The C call `httpd_register_wsgi_handlers(table, count)`. -/
def httpd_register_wsgi_handlers (E : Env) (table : List httpd_wsgi_call) (count : Nat)
    (w : World) : Int × World :=
  let r := E.httpd_register_wsgi_handlers w.trace table count
  (r, emit (.httpd_register_wsgi_handlers table count r) w)


/-! ## The handlers -/

/-- The embedded asset `index_html` of `web_data.c` is not part of the
sources; the handlers take its bytes as a parameter (one character per byte),
so `sizeof(index_html)` is its length. -/
structure Assets where
  index_html : String
  /-- The content-type macro `HTTP_CONTENT_HTML_STR` of `http-strings.h`. -/
  HTTP_CONTENT_HTML_STR : String

/-- The handler `http_get_index_page`. -/
def http_get_index_page (E : Env) (A : Assets) (req : httpd_request_t) (w : World) :
    OSStatus × World :=
  let (err, w) := httpd_send_all_header E req HTTP_RES_200 A.index_html.length
    HTTP_CONTENT_HTML_ZIP w
  if err ≠ kNoErr then
    (err, app_httpd_log "ERROR: Unable to send http wifisetting headers." w)
  else
  let (err, w) := httpd_send_body E req.sock A.index_html A.index_html.length w
  if err ≠ kNoErr then
    (err, app_httpd_log "ERROR: Unable to send http wifisetting body." w)
  else
  (err, w)

/-- The handler `http_get_socket_status`. -/
def http_get_socket_status (E : Env) (A : Assets) (req : httpd_request_t) (w : World) :
    OSStatus × World :=
  let (status, w) := get_socket_status E w
  let (err, w) := httpd_send_all_header E req HTTP_RES_200 (strlen status)
    A.HTTP_CONTENT_HTML_STR w
  if err ≠ kNoErr then
    (err, app_httpd_log "ERROR: Unable to send http socket_status headers." w)
  else
  let (err, w) := httpd_send_body E req.sock w.socket_status (strlen status) w
  if err ≠ kNoErr then
    (err, app_httpd_log "ERROR: Unable to send http socket_status body." w)
  else
  (err, w)

/-- The handler `http_set_socket_status`. -/
def http_set_socket_status (E : Env) (A : Assets) (req : httpd_request_t) (w : World) :
    OSStatus × World :=
  let buf_size := 512
  let (buf, w) := malloc E buf_size w
  -- save_out:
  let save_out := fun (err : OSStatus) (w : World) =>
    let w := if buf ≠ NULL then free buf w else w
    (err, w)
  let (err, w) := httpd_get_data E req buf buf_size w
  if err ≠ kNoErr then save_out err w else
  let w := set_socket_status buf w
  let status := "OK"
  let (err, w) := httpd_send_all_header E req HTTP_RES_200 (strlen status)
    A.HTTP_CONTENT_HTML_STR w
  if err ≠ kNoErr then
    save_out err (app_httpd_log "ERROR: Unable to send http socket_status headers." w)
  else
  let (err, w) := httpd_send_body E req.sock status (strlen status) w
  if err ≠ kNoErr then
    save_out err (app_httpd_log "ERROR: Unable to send http socket_status body." w)
  else
  save_out err w

/-- The handler `http_get_wifi_config`. -/
def http_get_wifi_config (E : Env) (A : Assets) (req : httpd_request_t) (w : World) :
    OSStatus × World :=
  let (status, w) := get_socket_status E w
  let (err, w) := httpd_send_all_header E req HTTP_RES_200 (strlen status)
    A.HTTP_CONTENT_HTML_STR w
  if err ≠ kNoErr then
    (err, app_httpd_log "ERROR: Unable to send http socket_status headers." w)
  else
  let (err, w) := httpd_send_body E req.sock w.socket_status (strlen status) w
  if err ≠ kNoErr then
    (err, app_httpd_log "ERROR: Unable to send http socket_status body." w)
  else
  (err, w)

/-- The handler `http_set_wifi_config`.  The label `exit` returns at once;
the label `save_out` passes `buf`, then the integers `ssid_size` and
`key_size`, to `free`. -/
def http_set_wifi_config (E : Env) (A : Assets) (req : httpd_request_t) (w : World) :
    OSStatus × World :=
  let buf_size := 512
  let ssid_size := 32
  let key_size := 64
  let (buf, w) := malloc E buf_size w
  let (wifi_ssid, w) := malloc E ssid_size w
  let (wifi_key, w) := malloc E key_size w
  -- save_out:
  let save_out := fun (err : OSStatus) (w : World) =>
    let w := if buf ≠ NULL then free buf w else w
    let w := if ssid_size ≠ 0 then free ssid_size w else w
    let w := if key_size ≠ 0 then free key_size w else w
    (err, w)
  let (err, w) := httpd_get_data E req buf buf_size w
  if err ≠ kNoErr then save_out err w else
  let (err, w) := httpd_get_tag_from_post_data E buf "ssid" wifi_ssid ssid_size w
  if err ≠ kNoErr then save_out err w else
  let (err, w) := httpd_get_tag_from_post_data E buf "key" wifi_key key_size w
  if err ≠ kNoErr then save_out err w else
  let w := wifi_connect wifi_ssid wifi_key w
  let status := "OK"
  let (err, w) := httpd_send_all_header E req HTTP_RES_200 (strlen status)
    A.HTTP_CONTENT_HTML_STR w
  if err ≠ kNoErr then
    (err, app_httpd_log "ERROR: Unable to send http socket_status headers." w)
  else
  let (err, w) := httpd_send_body E req.sock status (strlen status) w
  if err ≠ kNoErr then
    (err, app_httpd_log "ERROR: Unable to send http socket_status body." w)
  else
  (err, w)

/-- Calling a handler through its function pointer. -/
def call_handler (h : Handler) (E : Env) (A : Assets) (req : httpd_request_t) (w : World) :
    OSStatus × World :=
  match h with
  | .http_get_index_page => TC1.http_get_index_page E A req w
  | .http_get_socket_status => TC1.http_get_socket_status E A req w
  | .http_set_socket_status => TC1.http_set_socket_status E A req w
  | .http_get_wifi_config => TC1.http_get_wifi_config E A req w
  | .http_set_wifi_config => TC1.http_set_wifi_config E A req w

/-! ## The route table -/

/-- The three header-flag macros of `httpd.h`, whose values are not part of
the sources. -/
structure HdrFlags where
  HTTPD_HDR_ADD_SERVER : Nat
  HTTPD_HDR_ADD_CONN_CLOSE : Nat
  HTTPD_HDR_ADD_PRAGMA_NO_CACHE : Nat

/-- The macro `HTTPD_HDR_DEFORT`. -/
def HTTPD_HDR_DEFORT (F : HdrFlags) : Nat :=
  F.HTTPD_HDR_ADD_SERVER ||| F.HTTPD_HDR_ADD_CONN_CLOSE ||| F.HTTPD_HDR_ADD_PRAGMA_NO_CACHE

/-- The table `g_app_handlers`. -/
def g_app_handlers (F : HdrFlags) : List httpd_wsgi_call :=
  [ ⟨"/", HTTPD_HDR_DEFORT F, 0, some .http_get_index_page, none, none, none⟩,
    ⟨"/socket", HTTPD_HDR_DEFORT F, 0, some .http_get_socket_status,
      some .http_set_socket_status, none, none⟩,
    ⟨"/wifi/config", HTTPD_HDR_DEFORT F, 0, some .http_get_wifi_config,
      some .http_set_wifi_config, none, none⟩ ]

/-- The count `g_app_handlers_no`, the number of elements of the array. -/
def g_app_handlers_no (F : HdrFlags) : Nat := (g_app_handlers F).length

/-! ## Start and stop -/

/-- The function `app_http_register_handlers`. -/
def app_http_register_handlers (E : Env) (F : HdrFlags) (w : World) : World :=
  let (rc, w) := httpd_register_wsgi_handlers E (g_app_handlers F) (g_app_handlers_no F) w
  if rc ≠ 0 then app_httpd_log "failed to register test web handler" w else w

/-- The function `_app_httpd_start`. -/
def _app_httpd_start (E : Env) (w : World) : OSStatus × World :=
  let w := app_httpd_log "initializing web-services" w
  -- Start http thread
  let start := fun (w : World) =>
    let (err, w) := httpd_start E w
    if err ≠ kNoErr then
      let w := app_httpd_log "failed to start httpd thread" w
      let w := httpd_shutdown w
      (err, w)
    else (err, w)
  if w.is_http_init = false then
    let (err, w) := httpd_init E w
    if err ≠ kNoErr then (err, app_httpd_log "failed to initialize httpd" w) else
    let w := { w with is_http_init := true }
    start w
  else start w

/-- The function `app_httpd_start`. -/
def app_httpd_start (E : Env) (F : HdrFlags) (w : World) : OSStatus × World :=
  let (err, w) := _app_httpd_start E w
  if err ≠ kNoErr then (err, w) else
  if w.is_handlers_registered = false then
    let w := app_http_register_handlers E F w
    let w := { w with is_handlers_registered := true }
    (err, w)
  else (err, w)

/-- The function `app_httpd_stop`. -/
def app_httpd_stop (E : Env) (w : World) : OSStatus × World :=
  let w := app_httpd_log "stopping down httpd" w
  let (err, w) := httpd_stop E w
  if err ≠ kNoErr then (err, app_httpd_log "failed to halt httpd" w) else
  (err, w)


/-! ## The form field extractor and a sample environment -/

/-- Modelled from the spec: the two ways an extraction fails (section 4.1).
The extractor `httpd_get_tag_from_post_data` belongs to the httpd runtime and
is missing from the sources. -/
inductive ExtractError where
  | FieldNotFound
  | BufferTooSmall
deriving DecidableEq, Repr

/-- Modelled from the spec: the value of a hexadecimal digit of a `%XX`
sequence. -/
def hex_value (c : Char) : Option Nat :=
  if '0' ≤ c ∧ c ≤ '9' then some (c.toNat - '0'.toNat)
  else if 'a' ≤ c ∧ c ≤ 'f' then some (c.toNat - 'a'.toNat + 10)
  else if 'A' ≤ c ∧ c ≤ 'F' then some (c.toNat - 'A'.toNat + 10)
  else none

/-- Modelled from the spec: URL decoding of a value, `+` to space and `%XX`
to the character with that code; the first argument bounds the number of
steps. -/
def url_decode_fuel : Nat → List Char → List Char
  | 0, _ => []
  | _ + 1, [] => []
  | n + 1, c :: rest =>
    if c = '+' then ' ' :: url_decode_fuel n rest
    else if c = '%' then
      match rest with
      | a :: b :: rest2 =>
        match hex_value a, hex_value b with
        | some x, some y => Char.ofNat (16 * x + y) :: url_decode_fuel n rest2
        | _, _ => c :: url_decode_fuel n rest
      | _ => c :: url_decode_fuel n rest
    else c :: url_decode_fuel n rest

/-- Modelled from the spec: URL decoding of a whole value. -/
def url_decode (cs : List Char) : List Char := url_decode_fuel cs.length cs

/-- Modelled from the spec: cut a body at each separator. -/
def split_on (sep : Char) : List Char → List (List Char)
  | [] => [[]]
  | c :: cs =>
    if c = sep then [] :: split_on sep cs
    else
      match split_on sep cs with
      | [] => [[c]]
      | x :: xs => (c :: x) :: xs

/-- Modelled from the spec: the key and the raw value of one `key=value`
pair. -/
def key_value (pair : List Char) : List Char × List Char :=
  (pair.takeWhile (· ≠ '='), (pair.dropWhile (· ≠ '=')).drop 1)

/-- Modelled from the spec: the raw value of the first pair, from left to
right, whose key equals the field name. -/
def find_pair (name : List Char) : List (List Char) → Option (List Char)
  | [] => none
  | p :: ps => if (key_value p).1 = name then some (key_value p).2 else find_pair name ps

/-- Modelled from the spec: `extract_field` of section 4.1.  The first pair
whose key equals `field_name` wins; its value is URL-decoded; the extraction
fails with `FieldNotFound` when no pair matches and with `BufferTooSmall`
when the decoded value is longer than `out_capacity`. -/
def extract_field (body : String) (field_name : String) (out_capacity : Nat) :
    Except ExtractError String :=
  match find_pair field_name.toList (split_on '&' body.toList) with
  | none => .error .FieldNotFound
  | some v =>
    if (url_decode v).length > out_capacity then .error .BufferTooSmall
    else .ok (String.mk (url_decode v))

/-- A sample environment: the request body is `body`; every allocation
succeeds with a fresh block; the runtime reads the body, extracts fields as
`extract_field` does (an extraction failure gives a negative code and leaves
the destination untouched), and every send succeeds; `get_socket_status`
refreshes the global `socket_status` with `status` and returns it; the
lifecycle calls succeed. -/
def sampleEnv (body : String) (status : String) : Env where
  malloc := fun t _ => 4096 + 1024 * t.length
  httpd_get_data := fun _ _ => (kNoErr, body)
  httpd_get_tag_from_post_data := fun _ buf tag cap =>
    match extract_field buf tag cap with
    | .ok v => (kNoErr, some v)
    | .error .FieldNotFound => (-1, none)
    | .error .BufferTooSmall => (-2, none)
  get_socket_status := fun _ _ => status
  httpd_send_all_header := fun _ _ _ _ => kNoErr
  httpd_send_body := fun _ _ _ _ => kNoErr
  httpd_init := fun _ => kNoErr
  httpd_start := fun _ => kNoErr
  httpd_stop := fun _ => kNoErr
  httpd_register_wsgi_handlers := fun _ _ _ => 0

/-- The sample environment with a runtime that rejects the registration. -/
def rejectingEnv : Env :=
  { sampleEnv "" "" with httpd_register_wsgi_handlers := fun _ _ _ => -1 }

/-- Sample values of the three header flags, three distinct bits. -/
def sampleFlags : HdrFlags := ⟨1, 2, 4⟩

/-- Sample assets: a four-byte index page. -/
def sampleAssets : Assets := ⟨"\x1f\x8b\x08\x00", "text/html"⟩

/-- A sample request on socket 7. -/
def sampleReq : httpd_request_t := ⟨7⟩

/-! ## Observations on traces -/

/-- Is the call a route registration? -/
def isRegister : Call → Bool
  | .httpd_register_wsgi_handlers _ _ _ => true
  | _ => false

/-- The number of route registrations in a trace. -/
def registrations (t : List Call) : Nat := (t.filter isRegister).length

/-- A lifecycle call made by the surrounding process. -/
inductive Op where
  | start
  | stop
deriving DecidableEq, Repr

/-- Run one lifecycle call, dropping its return code. -/
def run_op (E : Env) (F : HdrFlags) (o : Op) (w : World) : World :=
  match o with
  | .start => (app_httpd_start E F w).2
  | .stop => (app_httpd_stop E w).2

/-- Run a sequence of lifecycle calls from left to right. -/
def run_ops (E : Env) (F : HdrFlags) : List Op → World → World
  | [], w => w
  | o :: os, w => run_ops E F os (run_op E F o w)

/-- The calls made by a step that took the state `w` to the result `r`: the
part of the final trace after the calls already in `w`. -/
def since {α : Type} (w : World) (r : α × World) : List Call :=
  r.2.trace.drop w.trace.length

/-- The first `app_httpd_start` of a process. -/
def first_start (E : Env) (F : HdrFlags) : OSStatus × World :=
  app_httpd_start E F World.init

/-- The `app_httpd_start` that follows the first one at once. -/
def second_start (E : Env) (F : HdrFlags) : OSStatus × World :=
  app_httpd_start E F (first_start E F).2

/-- The flag `is_handlers_registered` accounts for the registrations made so
far: at most one, and none while the flag is `false`. -/
def RegInv (w : World) : Prop :=
  registrations w.trace ≤ 1 ∧ (w.is_handlers_registered = false → registrations w.trace = 0)

/-- A runtime in which `httpd_init` and `httpd_start` always succeed. -/
def RuntimeOk (E : Env) : Prop :=
  (∀ t, E.httpd_init t = kNoErr) ∧ (∀ t, E.httpd_start t = kNoErr)

/-- Is the call a header write? -/
def isHeader : Call → Bool
  | .httpd_send_all_header _ _ _ _ => true
  | _ => false

/-- Is the call a body write? -/
def isBody : Call → Bool
  | .httpd_send_body _ _ _ _ => true
  | _ => false

/-- Is the call a release? -/
def isFree : Call → Bool
  | .free _ => true
  | _ => false

/-- Is the call a body read? -/
def isGetData : Call → Bool
  | .httpd_get_data _ _ _ _ => true
  | _ => false

/-- Is the call a field extraction? -/
def isExtraction : Call → Bool
  | .httpd_get_tag_from_post_data _ _ _ _ _ _ => true
  | _ => false

/-- Is the call a device action (`set_socket_status` or `wifi_connect`)? -/
def isDeviceAction : Call → Bool
  | .set_socket_status _ _ => true
  | .wifi_connect _ _ _ _ => true
  | _ => false

/-- The header writes of a trace, in order. -/
def headers (t : List Call) : List Call := t.filter isHeader

/-- The body writes of a trace, in order. -/
def bodies (t : List Call) : List Call := t.filter isBody

/-- The header and body writes of a trace, in order. -/
def writes (t : List Call) : List Call := t.filter (fun c => isHeader c || isBody c)

/-- The releases of a trace, in order. -/
def frees (t : List Call) : List Call := t.filter isFree

/-- The body reads of a trace, in order. -/
def reads (t : List Call) : List Call := t.filter isGetData

/-- The field extractions of a trace, in order. -/
def extractions (t : List Call) : List Call := t.filter isExtraction

/-- The device actions of a trace, in order. -/
def device_actions (t : List Call) : List Call := t.filter isDeviceAction

/-- The pointers returned by the allocations of a trace, in order. -/
def allocated : List Call → List Addr
  | [] => []
  | .malloc _ p :: t => p :: allocated t
  | _ :: t => allocated t

/-- The pointers passed to the releases of a trace, in order. -/
def released : List Call → List Addr
  | [] => []
  | .free p :: t => p :: released t
  | _ :: t => released t

/-- The sample environment with an allocator that is out of memory. -/
def nullEnv (body : String) : Env :=
  { sampleEnv body "" with malloc := fun _ _ => NULL }

/-- Is the call an `httpd_start`? -/
def isStart : Call → Bool
  | .httpd_start _ => true
  | _ => false

/-- Is the call a `get_socket_status`? -/
def isGetStatus : Call → Bool
  | .get_socket_status _ => true
  | _ => false

/-- The sample environment with a runtime whose `httpd_start` succeeds the
first time and fails with `-7` on every later call. -/
def restartFailsEnv : Env :=
  { sampleEnv "" "" with
    httpd_start := fun t => if t.any isStart then -7 else kNoErr }

/-- The body part of C6 for one run of a GET status handler: every body the
run sends is a string that `get_socket_status` returned in that run, sent
with its length. -/
def BodyIsReturnedStatus (new : List Call) : Prop :=
  ∀ sock data len ret, Call.httpd_send_body sock data len ret ∈ new →
    Call.get_socket_status data ∈ new ∧ len = strlen data

/-! ## Route lookup -/

/-- The request methods, one per handler slot of a route. -/
inductive Method where
  | GET
  | POST
  | PUT
  | DELETE
deriving DecidableEq, Repr

/-- Modelled from the spec: the outcome of `find(path, method)` (section 4.3).
The lookup is done by the httpd runtime, which is missing from the sources. -/
inductive FindResult where
  | found (h : Handler)
  | MethodNotAllowed
  | NotFound
deriving DecidableEq, Repr

/-- The handler slot of a route for a method. -/
def slot (e : httpd_wsgi_call) : Method → Option Handler
  | .GET => e.get_handler
  | .POST => e.set_handler
  | .PUT => e.put_handler
  | .DELETE => e.delete_handler

/-- Modelled from the spec: `find` is a linear scan by exact path match; a
route found without a handler for the method gives `MethodNotAllowed`. -/
def find : List httpd_wsgi_call → String → Method → FindResult
  | [], _, _ => .NotFound
  | e :: es, path, m =>
    if e.uri = path then
      match slot e m with
      | some h => .found h
      | none => .MethodNotAllowed
    else find es path m

/-- The discipline of the writes of a run that took `w` to `run`: no write
and a failure code; or one failed header write, whose code is returned; or a
successful header write followed by one body write, whose code is returned. -/
def WriteDiscipline (w : World) (run : OSStatus × World) : Prop :=
  run.2.trace = w.trace ++ since w run ∧
  ((writes (since w run) = [] ∧ run.1 ≠ kNoErr) ∨
    (∃ l n c e, writes (since w run) = [Call.httpd_send_all_header l n c e] ∧
      e ≠ kNoErr ∧ run.1 = e) ∨
    (∃ l n c s d m e, writes (since w run) =
        [Call.httpd_send_all_header l n c kNoErr, Call.httpd_send_body s d m e] ∧
      run.1 = e))

/-! ## Lemmas on start and stop -/

theorem registrations_append (s t : List Call) :
    registrations (s ++ t) = registrations s + registrations t := by
  simp [registrations]

theorem registrations_nil : registrations [] = 0 := rfl

/-- What `_app_httpd_start` leaves behind: the registration flag is untouched,
no registration is made, and `is_http_init` is never cleared. -/
theorem inner_start_frame (E : Env) (w : World) :
    (_app_httpd_start E w).2.is_handlers_registered = w.is_handlers_registered ∧
    registrations (_app_httpd_start E w).2.trace = registrations w.trace ∧
    (w.is_http_init = true → (_app_httpd_start E w).2.is_http_init = true) := by
  unfold _app_httpd_start
  simp only [app_httpd_log, httpd_init, httpd_start, httpd_shutdown, emit]
  split_ifs <;> simp_all [registrations, isRegister]

/-- One `app_httpd_start` from any state: the calls it adds, how many of them
are registrations, and where an error code comes from. -/
theorem start_step (E : Env) (F : HdrFlags) (w : World) :
    (app_httpd_start E F w).2.trace = w.trace ++ since w (app_httpd_start E F w) ∧
    (w.is_handlers_registered = true →
      registrations (since w (app_httpd_start E F w)) = 0 ∧
      (app_httpd_start E F w).2.is_handlers_registered = true) ∧
    (w.is_handlers_registered = false →
      (registrations (since w (app_httpd_start E F w)) = 0 ∧
        (app_httpd_start E F w).2.is_handlers_registered = false ∧
        (app_httpd_start E F w).1 ≠ kNoErr) ∨
      (registrations (since w (app_httpd_start E F w)) = 1 ∧
        (app_httpd_start E F w).2.is_handlers_registered = true ∧
        (app_httpd_start E F w).1 = kNoErr)) ∧
    ((app_httpd_start E F w).1 ≠ kNoErr →
      Call.httpd_init (app_httpd_start E F w).1 ∈ since w (app_httpd_start E F w) ∨
      Call.httpd_start (app_httpd_start E F w).1 ∈ since w (app_httpd_start E F w)) := by
  unfold app_httpd_start _app_httpd_start app_http_register_handlers
  simp only [app_httpd_log, httpd_init, httpd_start, httpd_shutdown,
    httpd_register_wsgi_handlers, emit, since]
  split_ifs <;> simp_all [registrations, isRegister]

/-- One `app_httpd_stop` from any state: it touches neither flag and makes no
registration. -/
theorem stop_step (E : Env) (w : World) :
    (app_httpd_stop E w).2.trace = w.trace ++ since w (app_httpd_stop E w) ∧
    registrations (since w (app_httpd_stop E w)) = 0 ∧
    (app_httpd_stop E w).2.is_handlers_registered = w.is_handlers_registered ∧
    (app_httpd_stop E w).2.is_http_init = w.is_http_init := by
  unfold app_httpd_stop
  simp only [app_httpd_log, httpd_stop, emit, since]
  split_ifs <;> simp_all [registrations, isRegister]

theorem RegInv_init : RegInv World.init := by
  simp [RegInv, World.init, registrations]

theorem RegInv_start (E : Env) (F : HdrFlags) (w : World) (h : RegInv w) :
    RegInv (app_httpd_start E F w).2 := by
  obtain ⟨ht, hreg, hunreg, -⟩ := start_step E F w
  obtain ⟨h1, h0⟩ := h
  unfold RegInv
  rw [ht, registrations_append]
  cases hf : w.is_handlers_registered with
  | true =>
    obtain ⟨hn, hflag⟩ := hreg hf
    rw [hn, hflag]
    exact ⟨by omega, by simp⟩
  | false =>
    have hz := h0 hf
    rcases hunreg hf with ⟨hn, hflag, -⟩ | ⟨hn, hflag, -⟩
    · rw [hn, hflag, hz]; simp
    · rw [hn, hflag, hz]; simp

theorem RegInv_stop (E : Env) (w : World) (h : RegInv w) :
    RegInv (app_httpd_stop E w).2 := by
  obtain ⟨ht, hn, hflag, -⟩ := stop_step E w
  unfold RegInv
  rw [ht, registrations_append, hn, hflag]
  exact h

theorem RegInv_run_ops (E : Env) (F : HdrFlags) (ops : List Op) :
    ∀ w, RegInv w → RegInv (run_ops E F ops w) := by
  induction ops with
  | nil => intro w h; exact h
  | cons o os ih =>
    intro w h
    cases o with
    | start => exact ih _ (RegInv_start E F w h)
    | stop => exact ih _ (RegInv_stop E w h)

/-- Once the flag `is_handlers_registered` is set, no sequence of lifecycle
calls registers again. -/
theorem registered_run_ops (E : Env) (F : HdrFlags) (ops : List Op) :
    ∀ w, w.is_handlers_registered = true →
      registrations (run_ops E F ops w).trace = registrations w.trace ∧
      (run_ops E F ops w).is_handlers_registered = true := by
  induction ops with
  | nil => intro w h; exact ⟨rfl, h⟩
  | cons o os ih =>
    intro w h
    cases o with
    | start =>
      obtain ⟨ht, hreg, -, -⟩ := start_step E F w
      obtain ⟨hn, hflag⟩ := hreg h
      obtain ⟨h1, h2⟩ := ih (app_httpd_start E F w).2 hflag
      refine ⟨?_, h2⟩
      show registrations (run_ops E F os (app_httpd_start E F w).2).trace = _
      rw [h1, ht, registrations_append, hn]; rfl
    | stop =>
      obtain ⟨ht, hn, hflag, -⟩ := stop_step E w
      obtain ⟨h1, h2⟩ := ih (app_httpd_stop E w).2 (hflag.trans h)
      refine ⟨?_, h2⟩
      show registrations (run_ops E F os (app_httpd_stop E w).2).trace = _
      rw [h1, ht, registrations_append, hn]; rfl

/-- A successful `app_httpd_start` leaves both flags set. -/
theorem start_ok_flags (E : Env) (F : HdrFlags) (w : World)
    (h : (app_httpd_start E F w).1 = kNoErr) :
    (app_httpd_start E F w).2.is_handlers_registered = true ∧
    (app_httpd_start E F w).2.is_http_init = true := by
  revert h
  unfold app_httpd_start _app_httpd_start app_http_register_handlers
  simp only [app_httpd_log, httpd_init, httpd_start, httpd_shutdown,
    httpd_register_wsgi_handlers, emit]
  split_ifs <;> simp_all

/-- With `is_http_init` set, `app_httpd_start` does not call `httpd_init` and
returns the code of its `httpd_start` call. -/
theorem start_when_init (E : Env) (F : HdrFlags) (w : World) (h : w.is_http_init = true) :
    (∀ r, Call.httpd_init r ∉ since w (app_httpd_start E F w)) ∧
    (app_httpd_start E F w).1 =
      E.httpd_start (w.trace ++ [Call.log "initializing web-services"]) := by
  unfold app_httpd_start _app_httpd_start app_http_register_handlers
  simp only [app_httpd_log, httpd_init, httpd_start, httpd_shutdown,
    httpd_register_wsgi_handlers, emit, since]
  split_ifs <;> simp_all

/-- With a runtime whose `httpd_init` and `httpd_start` succeed,
`app_httpd_start` succeeds. -/
theorem start_runtime_ok (E : Env) (F : HdrFlags) (w : World) (h : RuntimeOk E) :
    (app_httpd_start E F w).1 = kNoErr := by
  obtain ⟨hi, hs⟩ := h
  unfold app_httpd_start _app_httpd_start app_http_register_handlers
  simp only [app_httpd_log, httpd_init, httpd_start, httpd_shutdown,
    httpd_register_wsgi_handlers, emit]
  split_ifs <;> simp_all

/-! ## Start is idempotent with respect to registration -/

/-- C1 as written fails: with a runtime whose `httpd_start` succeeds the first
time and fails with `-7` afterwards, the first `app_httpd_start` succeeds and
registers the routes, and the second one, started at once, returns the error
`-7` of its own `httpd_start` call (without registering again). -/
theorem second_start_error_counterexample :
    (first_start restartFailsEnv sampleFlags).1 = kNoErr ∧
    (second_start restartFailsEnv sampleFlags).1 = -7 ∧
    (second_start restartFailsEnv sampleFlags).1 ≠ kNoErr ∧
    since (first_start restartFailsEnv sampleFlags).2
        (second_start restartFailsEnv sampleFlags) =
      [Call.log "initializing web-services", Call.httpd_start (-7),
       Call.log "failed to start httpd thread", Call.httpd_shutdown] ∧
    registrations (second_start restartFailsEnv sampleFlags).2.trace = 1 := by
  decide

/-- C1, amended. Two `app_httpd_start` calls in succession from the initial
state (both flags `false`, empty trace): the second call only extends the
trace; both calls together register the routes at most once, so a second call
never registers again; after a successful first call the routes are
registered once, the second call registers nothing, does not initialise
again, and returns exactly what its `httpd_start` returns; an error code
returned by the second call is always the code of an `httpd_init` or
`httpd_start` call made during it, so with a runtime whose `httpd_init` and
`httpd_start` succeed neither call returns an error and the routes are
registered exactly once.  Over any sequence of `app_httpd_start` (and
`app_httpd_stop`) calls the registration is invoked at most once. -/
theorem app_httpd_start_idempotent (E : Env) (F : HdrFlags) :
    (second_start E F).2.trace =
      (first_start E F).2.trace ++ since (first_start E F).2 (second_start E F) ∧
    registrations (first_start E F).2.trace +
      registrations (since (first_start E F).2 (second_start E F)) ≤ 1 ∧
    ((first_start E F).1 = kNoErr →
      registrations (first_start E F).2.trace = 1 ∧
      registrations (since (first_start E F).2 (second_start E F)) = 0 ∧
      (∀ r, Call.httpd_init r ∉ since (first_start E F).2 (second_start E F)) ∧
      (second_start E F).1 =
        E.httpd_start ((first_start E F).2.trace ++ [Call.log "initializing web-services"])) ∧
    ((second_start E F).1 ≠ kNoErr →
      Call.httpd_init (second_start E F).1 ∈ since (first_start E F).2 (second_start E F) ∨
      Call.httpd_start (second_start E F).1 ∈ since (first_start E F).2 (second_start E F)) ∧
    (RuntimeOk E →
      (first_start E F).1 = kNoErr ∧ (second_start E F).1 = kNoErr ∧
      registrations (second_start E F).2.trace = 1) ∧
    (∀ n, registrations (run_ops E F (List.replicate n Op.start) World.init).trace ≤ 1) ∧
    (∀ ops, registrations (run_ops E F ops World.init).trace ≤ 1) := by
  have hinv1 : RegInv (first_start E F).2 := RegInv_start E F _ RegInv_init
  obtain ⟨ht2, hreg2, hunreg2, herr2⟩ := start_step E F (first_start E F).2
  obtain ⟨-, -, hunreg1, -⟩ := start_step E F World.init
  have hfirst : (first_start E F).1 = kNoErr →
      registrations (first_start E F).2.trace = 1 ∧
      (first_start E F).2.is_handlers_registered = true ∧
      (first_start E F).2.is_http_init = true := by
    intro h1
    obtain ⟨hflag, hinit⟩ := start_ok_flags E F World.init h1
    refine ⟨?_, hflag, hinit⟩
    rcases hunreg1 rfl with ⟨-, -, hne⟩ | ⟨hn, -, -⟩
    · exact absurd h1 hne
    · simpa [since, World.init] using hn
  refine ⟨ht2, ?_, ?_, herr2, ?_, ?_, ?_⟩
  · cases hf : (first_start E F).2.is_handlers_registered with
    | true =>
      have h0 := (hreg2 hf).1
      have h1 := hinv1.1
      show _ + registrations (since (first_start E F).2 (second_start E F)) ≤ 1
      unfold second_start
      omega
    | false =>
      have h0 := hinv1.2 hf
      show _ + registrations (since (first_start E F).2 (second_start E F)) ≤ 1
      unfold second_start
      rcases hunreg2 hf with ⟨hn, -, -⟩ | ⟨hn, -, -⟩ <;> omega
  · intro h1
    obtain ⟨hr, hflag, hinit⟩ := hfirst h1
    exact ⟨hr, (hreg2 hflag).1, start_when_init E F _ hinit⟩
  · intro hok
    have h1 : (first_start E F).1 = kNoErr := start_runtime_ok E F _ hok
    have h2 : (second_start E F).1 = kNoErr := start_runtime_ok E F _ hok
    obtain ⟨hr, hflag, -⟩ := hfirst h1
    refine ⟨h1, h2, ?_⟩
    show registrations (app_httpd_start E F (first_start E F).2).2.trace = 1
    rw [ht2, registrations_append, hr, (hreg2 hflag).1]
  · intro n
    exact (RegInv_run_ops E F _ World.init RegInv_init).1
  · intro ops
    exact (RegInv_run_ops E F ops World.init RegInv_init).1

/-- Witness for the amended C1 on the sample environment, whose runtime
succeeds: both calls succeed and the routes are registered exactly once. -/
theorem app_httpd_start_idempotent_witness :
    RuntimeOk (sampleEnv "" "") ∧
    (first_start (sampleEnv "" "") sampleFlags).1 = kNoErr ∧
    (second_start (sampleEnv "" "") sampleFlags).1 = kNoErr ∧
    registrations (second_start (sampleEnv "" "") sampleFlags).2.trace = 1 :=
  ⟨⟨fun _ => rfl, fun _ => rfl⟩,
   (app_httpd_start_idempotent (sampleEnv "" "") sampleFlags).2.2.2.2.1
     ⟨fun _ => rfl, fun _ => rfl⟩⟩

/-- When `_app_httpd_start` succeeds with the registration flag clear,
`app_httpd_start` registers once and succeeds, whatever the registration
returns. -/
theorem start_inner_ok (E : Env) (F : HdrFlags) (w : World) :
    (_app_httpd_start E w).1 = kNoErr → w.is_handlers_registered = false →
      (app_httpd_start E F w).1 = kNoErr ∧
      (app_httpd_start E F w).2.is_handlers_registered = true ∧
      registrations (since w (app_httpd_start E F w)) = 1 ∧
      Call.httpd_register_wsgi_handlers (g_app_handlers F) (g_app_handlers_no F)
          (E.httpd_register_wsgi_handlers (_app_httpd_start E w).2.trace
            (g_app_handlers F) (g_app_handlers_no F))
        ∈ since w (app_httpd_start E F w) := by
  unfold app_httpd_start _app_httpd_start app_http_register_handlers
  simp only [app_httpd_log, httpd_init, httpd_start, httpd_shutdown,
    httpd_register_wsgi_handlers, emit, since]
  split_ifs <;> simp_all [registrations, isRegister]

/-- When `_app_httpd_start` fails, `app_httpd_start` returns its code and
registers nothing. -/
theorem start_inner_fail (E : Env) (F : HdrFlags) (w : World) :
    (_app_httpd_start E w).1 ≠ kNoErr →
      (app_httpd_start E F w).1 = (_app_httpd_start E w).1 ∧
      registrations (since w (app_httpd_start E F w)) = 0 ∧
      (app_httpd_start E F w).2.is_handlers_registered = w.is_handlers_registered ∧
      (Call.httpd_init (_app_httpd_start E w).1 ∈ since w (app_httpd_start E F w) ∨
        Call.httpd_start (_app_httpd_start E w).1 ∈ since w (app_httpd_start E F w)) := by
  unfold app_httpd_start _app_httpd_start app_http_register_handlers
  simp only [app_httpd_log, httpd_init, httpd_start, httpd_shutdown,
    httpd_register_wsgi_handlers, emit, since]
  split_ifs <;> simp_all [registrations, isRegister]

/-- The flag `is_http_init` after `app_httpd_start`. -/
theorem start_init_iff (E : Env) (F : HdrFlags) (w : World) :
    (app_httpd_start E F w).2.is_http_init = true ↔
      (w.is_http_init = true ∨ Call.httpd_init kNoErr ∈ since w (app_httpd_start E F w)) := by
  unfold app_httpd_start _app_httpd_start app_http_register_handlers
  simp only [app_httpd_log, httpd_init, httpd_start, httpd_shutdown,
    httpd_register_wsgi_handlers, emit, since]
  split_ifs <;> (try simp_all [registrations, isRegister])
  intro h
  exact absurd h.symm (by assumption)

/-- A failed `httpd_start` is followed by `httpd_shutdown` and leaves
`is_http_init` set. -/
theorem start_failed_thread (E : Env) (F : HdrFlags) (w : World) :
    w.is_http_init = true →
      ∀ r, r ≠ kNoErr → Call.httpd_start r ∈ since w (app_httpd_start E F w) →
        Call.httpd_shutdown ∈ since w (app_httpd_start E F w) ∧
        (app_httpd_start E F w).2.is_http_init = true := by
  unfold app_httpd_start _app_httpd_start app_http_register_handlers
  simp only [app_httpd_log, httpd_init, httpd_start, httpd_shutdown,
    httpd_register_wsgi_handlers, emit, since]
  split_ifs <;> simp_all [registrations, isRegister]

/-! ## The result of the registration is ignored -/

/-- C10. From any state: (1) when `_app_httpd_start` succeeds and
`is_handlers_registered` is `false`, `app_httpd_start` returns success, sets
the flag and has made exactly one registration call, whatever code that call
returned; (2) from the state it leaves, no later sequence of start and stop
calls registers again; (3) when `_app_httpd_start` fails, `app_httpd_start`
returns its code, makes no registration and leaves `is_handlers_registered`
as it was, and that code is the code of an `httpd_init` or `httpd_start`
call; (4) `is_http_init` is set after the call exactly when it was set before
or `httpd_init` was called and succeeded; (5) once set it stays set through
`app_httpd_start`, also when `httpd_start` fails and `httpd_shutdown` is
called, and through `app_httpd_stop`. -/
theorem registration_result_ignored (E : Env) (F : HdrFlags) (w : World) :
    ((_app_httpd_start E w).1 = kNoErr → w.is_handlers_registered = false →
      (app_httpd_start E F w).1 = kNoErr ∧
      (app_httpd_start E F w).2.is_handlers_registered = true ∧
      registrations (since w (app_httpd_start E F w)) = 1 ∧
      Call.httpd_register_wsgi_handlers (g_app_handlers F) (g_app_handlers_no F)
          (E.httpd_register_wsgi_handlers (_app_httpd_start E w).2.trace
            (g_app_handlers F) (g_app_handlers_no F))
        ∈ since w (app_httpd_start E F w) ∧
      ∀ ops, registrations (run_ops E F ops (app_httpd_start E F w).2).trace =
        registrations (app_httpd_start E F w).2.trace) ∧
    ((_app_httpd_start E w).1 ≠ kNoErr →
      (app_httpd_start E F w).1 = (_app_httpd_start E w).1 ∧
      registrations (since w (app_httpd_start E F w)) = 0 ∧
      (app_httpd_start E F w).2.is_handlers_registered = w.is_handlers_registered ∧
      (Call.httpd_init (_app_httpd_start E w).1 ∈ since w (app_httpd_start E F w) ∨
        Call.httpd_start (_app_httpd_start E w).1 ∈ since w (app_httpd_start E F w))) ∧
    ((app_httpd_start E F w).2.is_http_init = true ↔
      (w.is_http_init = true ∨ Call.httpd_init kNoErr ∈ since w (app_httpd_start E F w))) ∧
    (w.is_http_init = true →
      (app_httpd_start E F w).2.is_http_init = true ∧
      (∀ r, r ≠ kNoErr → Call.httpd_start r ∈ since w (app_httpd_start E F w) →
        Call.httpd_shutdown ∈ since w (app_httpd_start E F w) ∧
        (app_httpd_start E F w).2.is_http_init = true) ∧
      (app_httpd_stop E w).2.is_http_init = true) := by
  refine ⟨?_, start_inner_fail E F w, start_init_iff E F w, ?_⟩
  · intro h1 h2
    obtain ⟨k1, k2, k3, k4⟩ := start_inner_ok E F w h1 h2
    exact ⟨k1, k2, k3, k4, fun ops => (registered_run_ops E F ops _ k2).1⟩
  · intro h
    exact ⟨(start_init_iff E F w).2 (Or.inl h), start_failed_thread E F w h,
      by rw [(stop_step E w).2.2.2]; exact h⟩

/-- Witness for C10 on an environment whose registration call fails with
`-1`: the first start still succeeds and sets the flag. -/
theorem registration_result_ignored_witness :
    rejectingEnv.httpd_register_wsgi_handlers [] [] 0 = -1 ∧
    (_app_httpd_start rejectingEnv World.init).1 = kNoErr ∧
    World.init.is_handlers_registered = false ∧
    (app_httpd_start rejectingEnv sampleFlags World.init).1 = kNoErr ∧
    (app_httpd_start rejectingEnv sampleFlags World.init).2.is_handlers_registered = true :=
  ⟨rfl, rfl, rfl,
   ((registration_result_ignored rejectingEnv sampleFlags World.init).1 rfl rfl).1,
   ((registration_result_ignored rejectingEnv sampleFlags World.init).1 rfl rfl).2.1⟩

/-! ## The index page -/

/-- C7. For GET `/`, from any state and with any transport: the handler makes
exactly one header call, the first call of the run, with status 200, the
content type `text/html` followed by a `Content-Encoding: gzip` header line,
and the byte length of `index_html` as content length; when that call
succeeds it makes exactly one body call, whose data is `index_html` itself
and whose length is the same byte length, and returns the result of that
call; when the header call fails no body is sent. -/
theorem index_page_response (E : Env) (A : Assets) (req : httpd_request_t) (w : World) :
    (http_get_index_page E A req w).2.trace =
      w.trace ++ since w (http_get_index_page E A req w) ∧
    HTTP_RES_200.code = 200 ∧
    HTTP_CONTENT_HTML_ZIP = "text/html" ++ "\r\n" ++ "Content-Encoding: gzip" ∧
    ∃ h : OSStatus,
      (since w (http_get_index_page E A req w)).head? =
        some (Call.httpd_send_all_header HTTP_RES_200 A.index_html.length
          HTTP_CONTENT_HTML_ZIP h) ∧
      headers (since w (http_get_index_page E A req w)) =
        [Call.httpd_send_all_header HTTP_RES_200 A.index_html.length
          HTTP_CONTENT_HTML_ZIP h] ∧
      (h ≠ kNoErr →
        bodies (since w (http_get_index_page E A req w)) = [] ∧
        (http_get_index_page E A req w).1 = h) ∧
      (h = kNoErr → ∃ b : OSStatus,
        bodies (since w (http_get_index_page E A req w)) =
          [Call.httpd_send_body req.sock A.index_html A.index_html.length b] ∧
        (http_get_index_page E A req w).1 = b) := by
  refine ⟨?_, rfl, by decide, E.httpd_send_all_header w.trace HTTP_RES_200
    A.index_html.length HTTP_CONTENT_HTML_ZIP, ?_⟩
  · unfold http_get_index_page
    simp only [httpd_send_all_header, httpd_send_body, app_httpd_log, emit, since]
    split_ifs <;> simp
  · unfold http_get_index_page
    simp only [httpd_send_all_header, httpd_send_body, app_httpd_log, emit, since]
    split_ifs <;> simp_all [headers, bodies, isHeader, isBody]

/-! ## One step of each collaborator -/

theorem malloc_step (E : Env) (n : Nat) (w : World) :
    ∃ p w', malloc E n w = (p, w') ∧ w'.trace = w.trace ++ [Call.malloc n p] ∧
      w'.mem = w.mem :=
  ⟨_, _, rfl, rfl, rfl⟩

theorem httpd_get_data_step (E : Env) (req : httpd_request_t) (buf : Addr) (n : Nat)
    (w : World) :
    ∃ e c w', httpd_get_data E req buf n w = (e, w') ∧
      w'.trace = w.trace ++ [Call.httpd_get_data buf n c e] ∧
      w'.mem = store w.mem buf c :=
  ⟨_, _, _, rfl, rfl, rfl⟩

theorem httpd_get_tag_step (E : Env) (buf : Addr) (tag : String) (val : Addr) (n : Nat)
    (w : World) :
    ∃ e o w', httpd_get_tag_from_post_data E buf tag val n w = (e, w') ∧
      w'.trace = w.trace ++ [Call.httpd_get_tag_from_post_data buf tag val n o e] ∧
      w'.mem = (match o with
                | some s => store w.mem val s
                | none => w.mem) :=
  ⟨_, _, _, rfl, rfl, rfl⟩

theorem httpd_send_all_header_step (E : Env) (req : httpd_request_t) (l : StatusLine)
    (n : Nat) (c : String) (w : World) :
    ∃ e w', httpd_send_all_header E req l n c w = (e, w') ∧
      w'.trace = w.trace ++ [Call.httpd_send_all_header l n c e] :=
  ⟨_, _, rfl, rfl⟩

theorem httpd_send_body_step (E : Env) (sock : Int) (d : String) (n : Nat) (w : World) :
    ∃ e w', httpd_send_body E sock d n w = (e, w') ∧
      w'.trace = w.trace ++ [Call.httpd_send_body sock d n e] :=
  ⟨_, _, rfl, rfl⟩

theorem get_socket_status_step (E : Env) (w : World) :
    ∃ st w', get_socket_status E w = (st, w') ∧
      w'.trace = w.trace ++ [Call.get_socket_status st] :=
  ⟨_, _, rfl, rfl⟩

theorem free_trace (p : Addr) (w : World) :
    (free p w).trace = w.trace ++ [Call.free p] := rfl

theorem log_trace (m : String) (w : World) :
    (app_httpd_log m w).trace = w.trace ++ [Call.log m] := rfl

theorem wifi_connect_trace (p q : Addr) (w : World) :
    (wifi_connect p q w).trace = w.trace ++ [Call.wifi_connect p q (w.mem p) (w.mem q)] := rfl

theorem set_socket_status_trace (p : Addr) (w : World) :
    (set_socket_status p w).trace = w.trace ++ [Call.set_socket_status p (w.mem p)] := rfl

theorem since_append {α : Type} (w : World) (r : α × World) (l : List Call)
    (h : r.2.trace = w.trace ++ l) : since w r = l := by
  simp [since, h]

/-! ## The paths through `http_set_wifi_config` -/

/-- Every run of `http_set_wifi_config` takes one of five paths: the body
read fails; the extraction of `ssid` fails; the extraction of `key` fails
(these three end at `save_out`); the header write fails; the body is written
(these two end at `exit`). -/
theorem http_set_wifi_config_paths (E : Env) (A : Assets) (req : httpd_request_t)
    (w : World) :
    ∃ buf p1 p2 c e,
      (e ≠ kNoErr ∧ (http_set_wifi_config E A req w).1 = e ∧
        (http_set_wifi_config E A req w).2.trace = w.trace ++
          ([Call.malloc 512 buf, Call.malloc 32 p1, Call.malloc 64 p2,
            Call.httpd_get_data buf 512 c e] ++
           (if buf ≠ NULL then [Call.free buf] else []) ++
           [Call.free 32, Call.free 64])) ∨
      (∃ o1 e1, e1 ≠ kNoErr ∧ (http_set_wifi_config E A req w).1 = e1 ∧
        (http_set_wifi_config E A req w).2.trace = w.trace ++
          ([Call.malloc 512 buf, Call.malloc 32 p1, Call.malloc 64 p2,
            Call.httpd_get_data buf 512 c kNoErr,
            Call.httpd_get_tag_from_post_data buf "ssid" p1 32 o1 e1] ++
           (if buf ≠ NULL then [Call.free buf] else []) ++
           [Call.free 32, Call.free 64])) ∨
      (∃ o1 o2 e2, e2 ≠ kNoErr ∧ (http_set_wifi_config E A req w).1 = e2 ∧
        (http_set_wifi_config E A req w).2.trace = w.trace ++
          ([Call.malloc 512 buf, Call.malloc 32 p1, Call.malloc 64 p2,
            Call.httpd_get_data buf 512 c kNoErr,
            Call.httpd_get_tag_from_post_data buf "ssid" p1 32 o1 kNoErr,
            Call.httpd_get_tag_from_post_data buf "key" p2 64 o2 e2] ++
           (if buf ≠ NULL then [Call.free buf] else []) ++
           [Call.free 32, Call.free 64])) ∨
      (∃ o1 o2 sv kv h, h ≠ kNoErr ∧ (http_set_wifi_config E A req w).1 = h ∧
        (∀ s, o1 = some s → p1 ≠ p2 → sv = s) ∧ (∀ k, o2 = some k → kv = k) ∧
        (http_set_wifi_config E A req w).2.trace = w.trace ++
          [Call.malloc 512 buf, Call.malloc 32 p1, Call.malloc 64 p2,
            Call.httpd_get_data buf 512 c kNoErr,
            Call.httpd_get_tag_from_post_data buf "ssid" p1 32 o1 kNoErr,
            Call.httpd_get_tag_from_post_data buf "key" p2 64 o2 kNoErr,
            Call.wifi_connect p1 p2 sv kv,
            Call.httpd_send_all_header HTTP_RES_200 2 A.HTTP_CONTENT_HTML_STR h,
            Call.log "ERROR: Unable to send http socket_status headers."]) ∨
      (∃ o1 o2 sv kv b, (http_set_wifi_config E A req w).1 = b ∧
        (∀ s, o1 = some s → p1 ≠ p2 → sv = s) ∧ (∀ k, o2 = some k → kv = k) ∧
        (http_set_wifi_config E A req w).2.trace = w.trace ++
          ([Call.malloc 512 buf, Call.malloc 32 p1, Call.malloc 64 p2,
            Call.httpd_get_data buf 512 c kNoErr,
            Call.httpd_get_tag_from_post_data buf "ssid" p1 32 o1 kNoErr,
            Call.httpd_get_tag_from_post_data buf "key" p2 64 o2 kNoErr,
            Call.wifi_connect p1 p2 sv kv,
            Call.httpd_send_all_header HTTP_RES_200 2 A.HTTP_CONTENT_HTML_STR kNoErr,
            Call.httpd_send_body req.sock "OK" 2 b] ++
           (if b ≠ kNoErr then
              [Call.log "ERROR: Unable to send http socket_status body."]
            else []))) := by
  obtain ⟨buf, w1, h1, t1, m1⟩ := malloc_step E 512 w
  obtain ⟨p1, w2, h2, t2, m2⟩ := malloc_step E 32 w1
  obtain ⟨p2, w3, h3, t3, m3⟩ := malloc_step E 64 w2
  obtain ⟨e, c, w4, h4, t4, m4⟩ := httpd_get_data_step E req buf 512 w3
  obtain ⟨e1, o1, w5, h5, t5, m5⟩ := httpd_get_tag_step E buf "ssid" p1 32 w4
  obtain ⟨e2, o2, w6, h6, t6, m6⟩ := httpd_get_tag_step E buf "key" p2 64 w5
  obtain ⟨h, w7, h7, t7⟩ := httpd_send_all_header_step E req HTTP_RES_200 (strlen "OK")
    A.HTTP_CONTENT_HTML_STR (wifi_connect p1 p2 w6)
  obtain ⟨b, w8, h8, t8⟩ := httpd_send_body_step E req.sock "OK" (strlen "OK") w7
  have hlen : strlen "OK" = 2 := by decide
  rw [hlen] at h7 h8 t7 t8
  have hsv : ∀ s, o1 = some s → p1 ≠ p2 → w6.mem p1 = s := by
    intro s ho hne
    rw [m6, m5, ho]
    cases o2 <;> simp [store, hne]
  have hkv : ∀ k, o2 = some k → w6.mem p2 = k := by
    intro k ho
    rw [m6, ho]
    simp [store]
  refine ⟨buf, p1, p2, c, e, ?_⟩
  unfold http_set_wifi_config
  simp only [h1, h2, h3, h4, h5, h6, hlen, h7, h8]
  by_cases he : e = kNoErr
  · subst he
    by_cases he1 : e1 = kNoErr
    · subst he1
      by_cases he2 : e2 = kNoErr
      · subst he2
        by_cases hh : h = kNoErr
        · subst hh
          refine Or.inr (Or.inr (Or.inr (Or.inr ⟨o1, o2, _, _, b, ?_, hsv, hkv, ?_⟩)))
          · by_cases hb : b = kNoErr <;> simp [hb]
          · by_cases hb : b = kNoErr <;>
              simp [hb, log_trace, t8, t7, wifi_connect_trace, t6, t5, t4, t3, t2, t1]
        · refine Or.inr (Or.inr (Or.inr (Or.inl ⟨o1, o2, _, _, h, hh, ?_, hsv, hkv, ?_⟩)))
          · simp [hh]
          · simp [hh, log_trace, t7, wifi_connect_trace, t6, t5, t4, t3, t2, t1]
      · refine Or.inr (Or.inr (Or.inl ⟨o1, o2, e2, he2, ?_, ?_⟩))
        · simp [he2]
        · by_cases hb : buf = NULL <;>
            simp [he2, hb, free_trace, t6, t5, t4, t3, t2, t1]
    · refine Or.inr (Or.inl ⟨o1, e1, he1, ?_, ?_⟩)
      · simp [he1]
      · by_cases hb : buf = NULL <;>
          simp [he1, hb, free_trace, t5, t4, t3, t2, t1]
  · refine Or.inl ⟨he, ?_, ?_⟩
    · simp [he]
    · by_cases hb : buf = NULL <;>
        simp [he, hb, free_trace, t4, t3, t2, t1]

/-! ## The paths through `http_set_socket_status` -/

/-- Every run of `http_set_socket_status` takes one of three paths: the body
read fails; the header write fails; the body is written.  All three end at
`save_out`, which releases the buffer when it is not null. -/
theorem http_set_socket_status_paths (E : Env) (A : Assets) (req : httpd_request_t)
    (w : World) :
    ∃ buf c e,
      (e ≠ kNoErr ∧ (http_set_socket_status E A req w).1 = e ∧
        (http_set_socket_status E A req w).2.trace = w.trace ++
          ([Call.malloc 512 buf, Call.httpd_get_data buf 512 c e] ++
           (if buf ≠ NULL then [Call.free buf] else []))) ∨
      (∃ h, h ≠ kNoErr ∧ (http_set_socket_status E A req w).1 = h ∧
        (http_set_socket_status E A req w).2.trace = w.trace ++
          ([Call.malloc 512 buf, Call.httpd_get_data buf 512 c kNoErr,
            Call.set_socket_status buf c,
            Call.httpd_send_all_header HTTP_RES_200 2 A.HTTP_CONTENT_HTML_STR h,
            Call.log "ERROR: Unable to send http socket_status headers."] ++
           (if buf ≠ NULL then [Call.free buf] else []))) ∨
      (∃ b, (http_set_socket_status E A req w).1 = b ∧
        (http_set_socket_status E A req w).2.trace = w.trace ++
          ([Call.malloc 512 buf, Call.httpd_get_data buf 512 c kNoErr,
            Call.set_socket_status buf c,
            Call.httpd_send_all_header HTTP_RES_200 2 A.HTTP_CONTENT_HTML_STR kNoErr,
            Call.httpd_send_body req.sock "OK" 2 b] ++
           (if b ≠ kNoErr then
              [Call.log "ERROR: Unable to send http socket_status body."]
            else []) ++
           (if buf ≠ NULL then [Call.free buf] else []))) := by
  obtain ⟨buf, w1, h1, t1, m1⟩ := malloc_step E 512 w
  obtain ⟨e, c, w2, h2, t2, m2⟩ := httpd_get_data_step E req buf 512 w1
  obtain ⟨h, w3, h3, t3⟩ := httpd_send_all_header_step E req HTTP_RES_200 (strlen "OK")
    A.HTTP_CONTENT_HTML_STR (set_socket_status buf w2)
  obtain ⟨b, w4, h4, t4⟩ := httpd_send_body_step E req.sock "OK" (strlen "OK") w3
  have hlen : strlen "OK" = 2 := by decide
  rw [hlen] at h3 h4 t3 t4
  have hsv : w2.mem buf = c := by rw [m2]; simp [store]
  rw [set_socket_status_trace, hsv] at t3
  refine ⟨buf, c, e, ?_⟩
  unfold http_set_socket_status
  simp only [h1, h2, hlen, h3, h4]
  by_cases he : e = kNoErr
  · subst he
    by_cases hh : h = kNoErr
    · subst hh
      refine Or.inr (Or.inr ⟨b, ?_, ?_⟩)
      · by_cases hb : b = kNoErr <;> simp [hb]
      · by_cases hb : b = kNoErr <;> by_cases hn : buf = NULL <;>
          simp [hb, hn, free_trace, log_trace, t4, t3, t2, t1]
    · refine Or.inr (Or.inl ⟨h, hh, ?_, ?_⟩)
      · simp [hh]
      · by_cases hn : buf = NULL <;>
          simp [hh, hn, free_trace, log_trace, t3, t2, t1]
  · refine Or.inl ⟨he, ?_, ?_⟩
    · simp [he]
    · by_cases hn : buf = NULL <;> simp [he, hn, free_trace, t2, t1]

/-! ## The paths through the GET status handlers -/

/-- Every run of `http_get_socket_status` calls `get_socket_status`, writes a
header whose length is the `strlen` of the returned string, and then, when
the header write succeeded, writes a body from the global `socket_status`,
which holds that string, with that same length. -/
theorem http_get_socket_status_paths (E : Env) (A : Assets) (req : httpd_request_t)
    (w : World) :
    ∃ st,
      (E.get_socket_status w.trace w.socket_status = st) ∧
      ((∃ h, h ≠ kNoErr ∧ (http_get_socket_status E A req w).1 = h ∧
        (http_get_socket_status E A req w).2.trace = w.trace ++
          [Call.get_socket_status st,
            Call.httpd_send_all_header HTTP_RES_200 (strlen st) A.HTTP_CONTENT_HTML_STR h,
            Call.log "ERROR: Unable to send http socket_status headers."]) ∨
      (∃ b, (http_get_socket_status E A req w).1 = b ∧
        (http_get_socket_status E A req w).2.trace = w.trace ++
          ([Call.get_socket_status st,
            Call.httpd_send_all_header HTTP_RES_200 (strlen st) A.HTTP_CONTENT_HTML_STR
              kNoErr,
            Call.httpd_send_body req.sock st (strlen st) b] ++
           (if b ≠ kNoErr then
              [Call.log "ERROR: Unable to send http socket_status body."]
            else [])))) := by
  refine ⟨E.get_socket_status w.trace w.socket_status, rfl, ?_⟩
  unfold http_get_socket_status
  simp only [httpd_send_all_header, httpd_send_body, get_socket_status, app_httpd_log, emit]
  split_ifs <;> simp_all

/-- The handler `http_get_wifi_config` is the same code as
`http_get_socket_status`. -/
theorem http_get_wifi_config_eq (E : Env) (A : Assets) (req : httpd_request_t)
    (w : World) :
    http_get_wifi_config E A req w = http_get_socket_status E A req w := rfl

/-! ## Header before body, nothing after a failed write -/

theorem http_get_index_page_writes (E : Env) (A : Assets) (req : httpd_request_t) (w : World) :
    WriteDiscipline w (http_get_index_page E A req w) := by
  unfold WriteDiscipline http_get_index_page
  simp only [httpd_send_all_header, httpd_send_body, app_httpd_log, emit, since]
  split_ifs <;> simp_all [writes, isHeader, isBody]

theorem http_get_socket_status_writes (E : Env) (A : Assets) (req : httpd_request_t) (w : World) :
    WriteDiscipline w (http_get_socket_status E A req w) := by
  unfold WriteDiscipline http_get_socket_status
  simp only [httpd_send_all_header, httpd_send_body, get_socket_status, app_httpd_log,
    emit, since]
  split_ifs <;> simp_all [writes, isHeader, isBody]

theorem http_set_socket_status_writes (E : Env) (A : Assets) (req : httpd_request_t) (w : World) :
    WriteDiscipline w (http_set_socket_status E A req w) := by
  unfold WriteDiscipline http_set_socket_status
  simp only [httpd_send_all_header, httpd_send_body, httpd_get_data, malloc, free,
    set_socket_status, app_httpd_log, emit, since]
  split_ifs <;> simp_all [writes, isHeader, isBody]

theorem http_get_wifi_config_writes (E : Env) (A : Assets) (req : httpd_request_t) (w : World) :
    WriteDiscipline w (http_get_wifi_config E A req w) := by
  unfold WriteDiscipline http_get_wifi_config
  simp only [httpd_send_all_header, httpd_send_body, get_socket_status, app_httpd_log,
    emit, since]
  split_ifs <;> simp_all [writes, isHeader, isBody]

theorem http_set_wifi_config_writes (E : Env) (A : Assets) (req : httpd_request_t) (w : World) :
    WriteDiscipline w (http_set_wifi_config E A req w) := by
  obtain ⟨buf, p1, p2, c, e, H⟩ := http_set_wifi_config_paths E A req w
  unfold WriteDiscipline
  rcases H with ⟨he, hr, ht⟩ | ⟨o1, e1, he, hr, ht⟩ | ⟨o1, o2, e2, he, hr, ht⟩ |
    ⟨o1, o2, sv, kv, h, hh, hr, -, -, ht⟩ | ⟨o1, o2, sv, kv, b, hr, -, -, ht⟩
  · rw [since_append w _ _ ht]
    refine ⟨ht, Or.inl ⟨?_, by rw [hr]; exact he⟩⟩
    by_cases hn : buf = NULL <;> simp [hn, writes, isHeader, isBody]
  · rw [since_append w _ _ ht]
    refine ⟨ht, Or.inl ⟨?_, by rw [hr]; exact he⟩⟩
    by_cases hn : buf = NULL <;> simp [hn, writes, isHeader, isBody]
  · rw [since_append w _ _ ht]
    refine ⟨ht, Or.inl ⟨?_, by rw [hr]; exact he⟩⟩
    by_cases hn : buf = NULL <;> simp [hn, writes, isHeader, isBody]
  · rw [since_append w _ _ ht]
    refine ⟨ht, Or.inr (Or.inl ⟨HTTP_RES_200, 2, A.HTTP_CONTENT_HTML_STR, h, ?_, hh, hr⟩)⟩
    simp [writes, isHeader, isBody]
  · rw [since_append w _ _ ht]
    refine ⟨ht, Or.inr (Or.inr ⟨HTTP_RES_200, 2, A.HTTP_CONTENT_HTML_STR, req.sock, "OK", 2, b, ?_, hr⟩)⟩
    by_cases hb : b = kNoErr <;> simp [hb, writes, isHeader, isBody]

/-- C5. For every handler, from any state and with any transport, the header
and body writes of a run have one of three shapes: no write at all, and the
handler returns a failure code (an input step of a POST handler failed); or
one header write that failed and nothing after it, and the handler returns
its code; or one header write that succeeded followed by one body write and
nothing after it, and the handler returns the code of the body write.  So
each writer is called at most once, the header call comes first, the body
writer is called only after a successful header call, nothing is written
after a failed write, the code of the first failing write is returned, and
success is returned only when both writes succeeded. -/
theorem write_discipline (h : Handler) (E : Env) (A : Assets) (req : httpd_request_t)
    (w : World) :
    (call_handler h E A req w).2.trace = w.trace ++ since w (call_handler h E A req w) ∧
    ((writes (since w (call_handler h E A req w)) = [] ∧
        (call_handler h E A req w).1 ≠ kNoErr) ∨
      (∃ l n c e, writes (since w (call_handler h E A req w)) =
          [Call.httpd_send_all_header l n c e] ∧
        e ≠ kNoErr ∧ (call_handler h E A req w).1 = e) ∨
      (∃ l n c s d m e, writes (since w (call_handler h E A req w)) =
          [Call.httpd_send_all_header l n c kNoErr, Call.httpd_send_body s d m e] ∧
        (call_handler h E A req w).1 = e)) := by
  cases h
  · exact http_get_index_page_writes E A req w
  · exact http_get_socket_status_writes E A req w
  · exact http_set_socket_status_writes E A req w
  · exact http_get_wifi_config_writes E A req w
  · exact http_set_wifi_config_writes E A req w

/-! ## A failed input step ends the handler -/

/-- C4. For both POST handlers, from any state and with any collaborators: if
the body read `httpd_get_data` of a run returned a non-success code, the
handler returns exactly that code, extracts no field, invokes no device
action and writes neither header nor body; in `http_set_wifi_config`, if the
extraction of `ssid` returned a non-success code, the handler returns that
code, makes no further extraction, invokes no device action and writes
nothing; if the extraction of `key` returned a non-success code, the handler
returns that code, invokes no device action and writes nothing. -/
theorem input_failure_stops (E : Env) (A : Assets) (req : httpd_request_t) (w : World) :
    (∀ b n c e,
      Call.httpd_get_data b n c e ∈ since w (http_set_socket_status E A req w) →
      e ≠ kNoErr →
        (http_set_socket_status E A req w).1 = e ∧
        device_actions (since w (http_set_socket_status E A req w)) = [] ∧
        writes (since w (http_set_socket_status E A req w)) = []) ∧
    (∀ b n c e,
      Call.httpd_get_data b n c e ∈ since w (http_set_wifi_config E A req w) →
      e ≠ kNoErr →
        (http_set_wifi_config E A req w).1 = e ∧
        extractions (since w (http_set_wifi_config E A req w)) = [] ∧
        device_actions (since w (http_set_wifi_config E A req w)) = [] ∧
        writes (since w (http_set_wifi_config E A req w)) = []) ∧
    (∀ b v n o e,
      Call.httpd_get_tag_from_post_data b "ssid" v n o e ∈
        since w (http_set_wifi_config E A req w) →
      e ≠ kNoErr →
        (http_set_wifi_config E A req w).1 = e ∧
        extractions (since w (http_set_wifi_config E A req w)) =
          [Call.httpd_get_tag_from_post_data b "ssid" v n o e] ∧
        device_actions (since w (http_set_wifi_config E A req w)) = [] ∧
        writes (since w (http_set_wifi_config E A req w)) = []) ∧
    (∀ b v n o e,
      Call.httpd_get_tag_from_post_data b "key" v n o e ∈
        since w (http_set_wifi_config E A req w) →
      e ≠ kNoErr →
        (http_set_wifi_config E A req w).1 = e ∧
        device_actions (since w (http_set_wifi_config E A req w)) = [] ∧
        writes (since w (http_set_wifi_config E A req w)) = []) := by
  have hsk : ("ssid" : String) ≠ "key" := by decide
  refine ⟨?_, ?_, ?_, ?_⟩
  · intro b n c e hmem hne
    obtain ⟨buf, c', e', H⟩ := http_set_socket_status_paths E A req w
    rcases H with ⟨he, hr, ht⟩ | ⟨h, hh, hr, ht⟩ | ⟨b', hr, ht⟩ <;>
      rw [since_append w _ _ ht] at hmem ⊢ <;>
      by_cases hn : buf = NULL <;>
      simp_all [device_actions, writes, isDeviceAction, isHeader, isBody]
  · intro b n c e hmem hne
    obtain ⟨buf, p1, p2, c', e', H⟩ := http_set_wifi_config_paths E A req w
    rcases H with ⟨he, hr, ht⟩ | ⟨o1, e1, he, hr, ht⟩ | ⟨o1, o2, e2, he, hr, ht⟩ |
      ⟨o1, o2, sv, kv, h, hh, hr, -, -, ht⟩ | ⟨o1, o2, sv, kv, b', hr, -, -, ht⟩ <;>
      rw [since_append w _ _ ht] at hmem ⊢ <;>
      by_cases hn : buf = NULL <;>
      simp_all [extractions, isExtraction, device_actions, writes, isDeviceAction,
        isHeader, isBody]
  · intro b v n o e hmem hne
    obtain ⟨buf, p1, p2, c', e', H⟩ := http_set_wifi_config_paths E A req w
    rcases H with ⟨he, hr, ht⟩ | ⟨o1, e1, he, hr, ht⟩ | ⟨o1, o2, e2, he, hr, ht⟩ |
      ⟨o1, o2, sv, kv, h, hh, hr, -, -, ht⟩ | ⟨o1, o2, sv, kv, b', hr, -, -, ht⟩ <;>
      rw [since_append w _ _ ht] at hmem ⊢ <;>
      by_cases hn : buf = NULL <;>
      simp_all [extractions, isExtraction, device_actions, writes, isDeviceAction,
        isHeader, isBody]
  · intro b v n o e hmem hne
    obtain ⟨buf, p1, p2, c', e', H⟩ := http_set_wifi_config_paths E A req w
    rcases H with ⟨he, hr, ht⟩ | ⟨o1, e1, he, hr, ht⟩ | ⟨o1, o2, e2, he, hr, ht⟩ |
      ⟨o1, o2, sv, kv, h, hh, hr, -, -, ht⟩ | ⟨o1, o2, sv, kv, b', hr, -, -, ht⟩ <;>
      rw [since_append w _ _ ht] at hmem ⊢ <;>
      by_cases hn : buf = NULL <;>
      simp_all [extractions, isExtraction, device_actions, writes, isDeviceAction,
        isHeader, isBody]

/-- Witness for C4 on the sample environment with the body `ssid=MyWifi`: the
extraction of `key` fails with `-1`, which the handler returns without
joining the network and without writing. -/
theorem input_failure_stops_witness :
    Call.httpd_get_tag_from_post_data 4096 "key" 6144 64 none (-1) ∈
      since World.init
        (http_set_wifi_config (sampleEnv "ssid=MyWifi" "") sampleAssets sampleReq World.init) ∧
    (-1 : OSStatus) ≠ kNoErr ∧
    (http_set_wifi_config (sampleEnv "ssid=MyWifi" "") sampleAssets sampleReq World.init).1
      = -1 ∧
    device_actions (since World.init
      (http_set_wifi_config (sampleEnv "ssid=MyWifi" "") sampleAssets sampleReq World.init))
      = [] ∧
    writes (since World.init
      (http_set_wifi_config (sampleEnv "ssid=MyWifi" "") sampleAssets sampleReq World.init))
      = [] :=
  ⟨by decide, by decide,
   (input_failure_stops (sampleEnv "ssid=MyWifi" "") sampleAssets sampleReq World.init).2.2.2
     4096 6144 64 none (-1) (by decide) (by decide)⟩

/-! ## A successful wifi configuration -/

/-- C2. For every run of `http_set_wifi_config`, from any state: if the body
read succeeded, the extraction of `ssid` (capacity 32) from the 512-byte body
buffer succeeded and wrote `s`, the extraction of `key` (capacity 64)
succeeded and wrote `k`, and the two destination buffers are distinct blocks,
then the run is: the three allocations, the body read, the two extractions,
one call `wifi_connect` on buffers holding exactly `s` and `k`, then one
header write with status 200 and content length 2 and, when it succeeded, one
body write of the 2-byte string `OK`; `wifi_connect` is the only device
action of the run, and the handler returns the code of the last write, so
success when both writes succeed. -/
theorem wifi_config_joins (E : Env) (A : Assets) (req : httpd_request_t) (w : World)
    (buf p1 p2 : Addr) (body s k : String)
    (hread : Call.httpd_get_data buf 512 body kNoErr ∈
      since w (http_set_wifi_config E A req w))
    (hssid : Call.httpd_get_tag_from_post_data buf "ssid" p1 32 (some s) kNoErr ∈
      since w (http_set_wifi_config E A req w))
    (hkey : Call.httpd_get_tag_from_post_data buf "key" p2 64 (some k) kNoErr ∈
      since w (http_set_wifi_config E A req w))
    (hdist : p1 ≠ p2) :
    device_actions (since w (http_set_wifi_config E A req w)) =
      [Call.wifi_connect p1 p2 s k] ∧
    HTTP_RES_200.code = 200 ∧ strlen "OK" = 2 ∧
    ∃ h : OSStatus,
      (h ≠ kNoErr →
        (http_set_wifi_config E A req w).1 = h ∧
        since w (http_set_wifi_config E A req w) =
          [Call.malloc 512 buf, Call.malloc 32 p1, Call.malloc 64 p2,
            Call.httpd_get_data buf 512 body kNoErr,
            Call.httpd_get_tag_from_post_data buf "ssid" p1 32 (some s) kNoErr,
            Call.httpd_get_tag_from_post_data buf "key" p2 64 (some k) kNoErr,
            Call.wifi_connect p1 p2 s k,
            Call.httpd_send_all_header HTTP_RES_200 2 A.HTTP_CONTENT_HTML_STR h,
            Call.log "ERROR: Unable to send http socket_status headers."]) ∧
      (h = kNoErr → ∃ b : OSStatus,
        (http_set_wifi_config E A req w).1 = b ∧
        since w (http_set_wifi_config E A req w) =
          [Call.malloc 512 buf, Call.malloc 32 p1, Call.malloc 64 p2,
            Call.httpd_get_data buf 512 body kNoErr,
            Call.httpd_get_tag_from_post_data buf "ssid" p1 32 (some s) kNoErr,
            Call.httpd_get_tag_from_post_data buf "key" p2 64 (some k) kNoErr,
            Call.wifi_connect p1 p2 s k,
            Call.httpd_send_all_header HTTP_RES_200 2 A.HTTP_CONTENT_HTML_STR kNoErr,
            Call.httpd_send_body req.sock "OK" 2 b] ++
          (if b ≠ kNoErr then
             [Call.log "ERROR: Unable to send http socket_status body."]
           else [])) := by
  have hsk : ("ssid" : String) ≠ "key" := by decide
  have hks : ("key" : String) ≠ "ssid" := by decide
  obtain ⟨buf', q1, q2, c, e, H⟩ := http_set_wifi_config_paths E A req w
  rcases H with ⟨he, hr, ht⟩ | ⟨o1, e1, he, hr, ht⟩ | ⟨o1, o2, e2, he, hr, ht⟩ |
    ⟨o1, o2, sv, kv, h, hh, hr, hsv, hkv, ht⟩ | ⟨o1, o2, sv, kv, b, hr, hsv, hkv, ht⟩
  · rw [since_append w _ _ ht] at hread
    by_cases hn : buf' = NULL <;> simp_all
  · rw [since_append w _ _ ht] at hssid
    by_cases hn : buf' = NULL <;> simp_all
  · rw [since_append w _ _ ht] at hkey
    by_cases hn : buf' = NULL <;> simp_all
  · rw [since_append w _ _ ht] at hread hssid hkey ⊢
    simp [hsk, hks] at hread hssid hkey
    obtain ⟨hb1, hc1⟩ := hread
    obtain ⟨-, hp1, ho1⟩ := hssid
    obtain ⟨-, hp2, ho2⟩ := hkey
    subst hb1 hc1 hp1 ho1 hp2 ho2
    have h1 := hsv s rfl hdist
    have h2 := hkv k rfl
    subst h1 h2
    refine ⟨by simp [device_actions, isDeviceAction], rfl, by decide, h, ?_, ?_⟩
    · intro _; exact ⟨hr, rfl⟩
    · intro h0; exact absurd h0 hh
  · rw [since_append w _ _ ht] at hread hssid hkey ⊢
    have hb : (if b ≠ kNoErr then
        [Call.log "ERROR: Unable to send http socket_status body."] else []) = [] ∨
      (if b ≠ kNoErr then
        [Call.log "ERROR: Unable to send http socket_status body."] else []) =
        [Call.log "ERROR: Unable to send http socket_status body."] := by
      by_cases hb : b = kNoErr <;> simp [hb]
    rcases hb with hb | hb <;> rw [hb] at hread hssid hkey ⊢ <;>
    · simp [hsk, hks] at hread hssid hkey
      obtain ⟨hb1, hc1⟩ := hread
      obtain ⟨-, hp1, ho1⟩ := hssid
      obtain ⟨-, hp2, ho2⟩ := hkey
      subst hb1 hc1 hp1 ho1 hp2 ho2
      have h1 := hsv s rfl hdist
      have h2 := hkv k rfl
      subst h1 h2
      refine ⟨by simp [device_actions, isDeviceAction], rfl, by decide, kNoErr, ?_, ?_⟩
      · intro h0; exact absurd rfl h0
      · intro _; exact ⟨b, hr, by rw [hb]⟩

/-- Witness for C2 on the sample environment with the body
`ssid=MyWifi&key=hunter2`: the network is joined once, with `MyWifi` and
`hunter2`. -/
theorem wifi_config_joins_witness :
    Call.httpd_get_data 4096 512 "ssid=MyWifi&key=hunter2" kNoErr ∈
      since World.init (http_set_wifi_config (sampleEnv "ssid=MyWifi&key=hunter2" "")
        sampleAssets sampleReq World.init) ∧
    Call.httpd_get_tag_from_post_data 4096 "ssid" 5120 32 (some "MyWifi") kNoErr ∈
      since World.init (http_set_wifi_config (sampleEnv "ssid=MyWifi&key=hunter2" "")
        sampleAssets sampleReq World.init) ∧
    Call.httpd_get_tag_from_post_data 4096 "key" 6144 64 (some "hunter2") kNoErr ∈
      since World.init (http_set_wifi_config (sampleEnv "ssid=MyWifi&key=hunter2" "")
        sampleAssets sampleReq World.init) ∧
    (5120 : Addr) ≠ 6144 ∧
    device_actions (since World.init
      (http_set_wifi_config (sampleEnv "ssid=MyWifi&key=hunter2" "")
        sampleAssets sampleReq World.init)) =
      [Call.wifi_connect 5120 6144 "MyWifi" "hunter2"] ∧
    writes (since World.init
      (http_set_wifi_config (sampleEnv "ssid=MyWifi&key=hunter2" "")
        sampleAssets sampleReq World.init)) =
      [Call.httpd_send_all_header HTTP_RES_200 2 "text/html" kNoErr,
       Call.httpd_send_body 7 "OK" 2 kNoErr] ∧
    (http_set_wifi_config (sampleEnv "ssid=MyWifi&key=hunter2" "")
        sampleAssets sampleReq World.init).1 = kNoErr :=
  ⟨by decide, by decide, by decide, by decide,
   (wifi_config_joins (sampleEnv "ssid=MyWifi&key=hunter2" "") sampleAssets sampleReq
      World.init 4096 5120 6144 "ssid=MyWifi&key=hunter2" "MyWifi" "hunter2"
      (by decide) (by decide) (by decide) (by decide)).1,
   by decide, by decide⟩

/-! ## Release of the buffers -/

/-- C3, evaluated on the sample environment.  With the body
`ssid=MyWifi&key=hunter2` the handler `http_set_wifi_config` succeeds having
allocated three blocks and released none.  With the body `ssid=MyWifi` the
extraction of `key` fails and the handler passes to `free` the body buffer
and then the integers `32` and `64`, which are not allocated blocks, while
the blocks of `wifi_ssid` and `wifi_key` are never released.  The handler
`http_set_socket_status` does release its one block. -/
theorem wifi_config_release_defect :
    (http_set_wifi_config (sampleEnv "ssid=MyWifi&key=hunter2" "") sampleAssets sampleReq
      World.init).1 = kNoErr ∧
    allocated (since World.init (http_set_wifi_config
      (sampleEnv "ssid=MyWifi&key=hunter2" "") sampleAssets sampleReq World.init)) =
      [4096, 5120, 6144] ∧
    released (since World.init (http_set_wifi_config
      (sampleEnv "ssid=MyWifi&key=hunter2" "") sampleAssets sampleReq World.init)) = [] ∧
    (http_set_wifi_config (sampleEnv "ssid=MyWifi" "") sampleAssets sampleReq
      World.init).1 = -1 ∧
    allocated (since World.init (http_set_wifi_config
      (sampleEnv "ssid=MyWifi" "") sampleAssets sampleReq World.init)) =
      [4096, 5120, 6144] ∧
    released (since World.init (http_set_wifi_config
      (sampleEnv "ssid=MyWifi" "") sampleAssets sampleReq World.init)) = [4096, 32, 64] ∧
    allocated (since World.init (http_set_socket_status
      (sampleEnv "1" "") sampleAssets sampleReq World.init)) = [4096] ∧
    released (since World.init (http_set_socket_status
      (sampleEnv "1" "") sampleAssets sampleReq World.init)) = [4096] := by
  decide

/-! ## A failed allocation -/

/-- C8, evaluated on the sample environment with an allocator that returns
`NULL`.  The handler `http_set_socket_status` passes the null buffer to
`httpd_get_data`, then to `set_socket_status`, sends the response 200 `OK`
and returns success.  The handler `http_set_wifi_config` likewise starts by
passing the null buffer to `httpd_get_data`. -/
theorem null_buffer_is_read :
    since World.init (http_set_socket_status (nullEnv "1") sampleAssets sampleReq World.init)
      = [Call.malloc 512 NULL,
         Call.httpd_get_data NULL 512 "1" kNoErr,
         Call.set_socket_status NULL "1",
         Call.httpd_send_all_header HTTP_RES_200 2 "text/html" kNoErr,
         Call.httpd_send_body 7 "OK" 2 kNoErr] ∧
    (http_set_socket_status (nullEnv "1") sampleAssets sampleReq World.init).1 = kNoErr ∧
    (since World.init (http_set_wifi_config (nullEnv "ssid=MyWifi&key=hunter2")
      sampleAssets sampleReq World.init)).take 4
      = [Call.malloc 512 NULL, Call.malloc 32 NULL, Call.malloc 64 NULL,
         Call.httpd_get_data NULL 512 "ssid=MyWifi&key=hunter2" kNoErr] := by
  decide

/-! ## The GET status handlers -/

/-- C6. For both GET status handlers, from any state and with any transport:
the run calls `get_socket_status` once, first, and gets the status string
`st`; it makes one header write, with status 200 and content length
`strlen st`; when the header write succeeded it makes exactly one body
write, on the socket of the request, whose data is the string `st` and whose
length is `strlen st`, and when it failed it writes no body; so every body
sent in the run is the string `get_socket_status` returned, and the declared
content length is the length of that string and the number of body bytes
passed to the writer. -/
theorem status_response (E : Env) (A : Assets) (req : httpd_request_t) (w : World)
    (hd : Handler) (hhd : hd = .http_get_socket_status ∨ hd = .http_get_wifi_config) :
    ∃ st h,
      E.get_socket_status w.trace w.socket_status = st ∧
      HTTP_RES_200.code = 200 ∧
      (since w (call_handler hd E A req w)).head? = some (Call.get_socket_status st) ∧
      (since w (call_handler hd E A req w)).filter isGetStatus =
        [Call.get_socket_status st] ∧
      headers (since w (call_handler hd E A req w)) =
        [Call.httpd_send_all_header HTTP_RES_200 (strlen st) A.HTTP_CONTENT_HTML_STR h] ∧
      (h ≠ kNoErr → bodies (since w (call_handler hd E A req w)) = []) ∧
      (h = kNoErr → ∃ b, bodies (since w (call_handler hd E A req w)) =
        [Call.httpd_send_body req.sock st (strlen st) b]) ∧
      BodyIsReturnedStatus (since w (call_handler hd E A req w)) := by
  have hcall : call_handler hd E A req w = http_get_socket_status E A req w := by
    rcases hhd with rfl | rfl <;> rfl
  rw [hcall]
  obtain ⟨st, hg, H⟩ := http_get_socket_status_paths E A req w
  rcases H with ⟨h, hh, -, ht⟩ | ⟨b, -, ht⟩
  · rw [since_append w _ _ ht]
    refine ⟨st, h, hg, rfl, rfl, by simp [isGetStatus], by simp [headers, isHeader],
      ?_, ?_, ?_⟩
    · intro _; simp [bodies, isBody]
    · intro h0; exact absurd h0 hh
    · intro sock data len ret hmem
      simp at hmem
  · rw [since_append w _ _ ht]
    refine ⟨st, kNoErr, hg, rfl, rfl, ?_, ?_, ?_, ?_, ?_⟩
    · by_cases hb : b = kNoErr <;> simp [hb, isGetStatus]
    · by_cases hb : b = kNoErr <;> simp [hb, headers, isHeader]
    · intro h0; exact absurd rfl h0
    · intro _
      exact ⟨b, by by_cases hb : b = kNoErr <;> simp [hb, bodies, isBody]⟩
    · intro sock data len ret hmem
      by_cases hb : b = kNoErr <;> simp [hb] at hmem <;>
        obtain ⟨-, rfl, rfl, -⟩ := hmem <;> simp

/-- Witness for C6 on the sample environment with the status string `1,0,0`,
for the handler of `/wifi/config`: the response is 200 with content length
5 and the body `1,0,0`. -/
theorem status_response_witness :
    (Handler.http_get_wifi_config = .http_get_socket_status ∨
      Handler.http_get_wifi_config = .http_get_wifi_config) ∧
    since World.init
        (http_get_wifi_config (sampleEnv "" "1,0,0") sampleAssets sampleReq World.init) =
      [Call.get_socket_status "1,0,0",
       Call.httpd_send_all_header HTTP_RES_200 5 "text/html" kNoErr,
       Call.httpd_send_body 7 "1,0,0" 5 kNoErr] ∧
    ∃ st h,
      (sampleEnv "" "1,0,0").get_socket_status World.init.trace World.init.socket_status
        = st ∧
      HTTP_RES_200.code = 200 ∧
      (since World.init (call_handler .http_get_wifi_config (sampleEnv "" "1,0,0")
        sampleAssets sampleReq World.init)).head? = some (Call.get_socket_status st) ∧
      (since World.init (call_handler .http_get_wifi_config (sampleEnv "" "1,0,0")
        sampleAssets sampleReq World.init)).filter isGetStatus =
        [Call.get_socket_status st] ∧
      headers (since World.init (call_handler .http_get_wifi_config (sampleEnv "" "1,0,0")
        sampleAssets sampleReq World.init)) =
        [Call.httpd_send_all_header HTTP_RES_200 (strlen st)
          sampleAssets.HTTP_CONTENT_HTML_STR h] ∧
      (h ≠ kNoErr → bodies (since World.init (call_handler .http_get_wifi_config
        (sampleEnv "" "1,0,0") sampleAssets sampleReq World.init)) = []) ∧
      (h = kNoErr → ∃ b, bodies (since World.init (call_handler .http_get_wifi_config
        (sampleEnv "" "1,0,0") sampleAssets sampleReq World.init)) =
        [Call.httpd_send_body sampleReq.sock st (strlen st) b]) ∧
      BodyIsReturnedStatus (since World.init (call_handler .http_get_wifi_config
        (sampleEnv "" "1,0,0") sampleAssets sampleReq World.init)) :=
  ⟨Or.inr rfl, by decide,
   status_response (sampleEnv "" "1,0,0") sampleAssets sampleReq World.init
     .http_get_wifi_config (Or.inr rfl)⟩

/-! ## The route table and the lookup -/

theorem or_and_self_left (a b c : Nat) : (a ||| b ||| c) &&& a = a := by
  apply Nat.eq_of_testBit_eq
  intro i
  simp only [Nat.testBit_and, Nat.testBit_or]
  cases a.testBit i <;> cases b.testBit i <;> cases c.testBit i <;> rfl

theorem or_and_self_mid (a b c : Nat) : (a ||| b ||| c) &&& b = b := by
  apply Nat.eq_of_testBit_eq
  intro i
  simp only [Nat.testBit_and, Nat.testBit_or]
  cases a.testBit i <;> cases b.testBit i <;> cases c.testBit i <;> rfl

theorem or_and_self_right (a b c : Nat) : (a ||| b ||| c) &&& c = c := by
  apply Nat.eq_of_testBit_eq
  intro i
  simp only [Nat.testBit_and, Nat.testBit_or]
  cases a.testBit i <;> cases b.testBit i <;> cases c.testBit i <;> rfl

/-- C9. Whatever the values of the three flag macros: the table
`g_app_handlers` has exactly the three paths `/`, `/socket`, `/wifi/config`,
in this order and pairwise distinct; `/` has the GET handler
`http_get_index_page` and no POST handler, `/socket` and `/wifi/config` have
both a GET and a POST handler; the two further handler slots are empty in
every entry; every entry has a handler; the header flags of every entry are
the three flags ADD_SERVER, ADD_CONN_CLOSE and ADD_PRAGMA_NO_CACHE combined,
each of which is set in them; `g_app_handlers_no` is 3.  A linear exact-path
lookup over the table gives for every entry and method the handler in that
slot, gives no handler for POST `/`, and finds nothing for any other path. -/
theorem route_table (F : HdrFlags) :
    (g_app_handlers F).map (fun e => e.uri) = ["/", "/socket", "/wifi/config"] ∧
    ((g_app_handlers F).map (fun e => e.uri)).Nodup ∧
    (g_app_handlers F).map (fun e => (e.get_handler, e.set_handler)) =
      [(some .http_get_index_page, none),
       (some .http_get_socket_status, some .http_set_socket_status),
       (some .http_get_wifi_config, some .http_set_wifi_config)] ∧
    (∀ e ∈ g_app_handlers F, e.put_handler = none ∧ e.delete_handler = none) ∧
    (∀ e ∈ g_app_handlers F, ∃ m h, slot e m = some h) ∧
    (∀ e ∈ g_app_handlers F,
      e.hdr_fields = F.HTTPD_HDR_ADD_SERVER ||| F.HTTPD_HDR_ADD_CONN_CLOSE |||
        F.HTTPD_HDR_ADD_PRAGMA_NO_CACHE ∧
      e.hdr_fields &&& F.HTTPD_HDR_ADD_SERVER = F.HTTPD_HDR_ADD_SERVER ∧
      e.hdr_fields &&& F.HTTPD_HDR_ADD_CONN_CLOSE = F.HTTPD_HDR_ADD_CONN_CLOSE ∧
      e.hdr_fields &&& F.HTTPD_HDR_ADD_PRAGMA_NO_CACHE = F.HTTPD_HDR_ADD_PRAGMA_NO_CACHE) ∧
    g_app_handlers_no F = 3 ∧
    (∀ e ∈ g_app_handlers F, ∀ m,
      find (g_app_handlers F) e.uri m =
        (match slot e m with
         | some h => FindResult.found h
         | none => FindResult.MethodNotAllowed)) ∧
    find (g_app_handlers F) "/" .GET = .found .http_get_index_page ∧
    find (g_app_handlers F) "/" .POST = .MethodNotAllowed ∧
    find (g_app_handlers F) "/socket" .GET = .found .http_get_socket_status ∧
    find (g_app_handlers F) "/socket" .POST = .found .http_set_socket_status ∧
    find (g_app_handlers F) "/wifi/config" .GET = .found .http_get_wifi_config ∧
    find (g_app_handlers F) "/wifi/config" .POST = .found .http_set_wifi_config ∧
    (∀ path m, path ∉ ["/", "/socket", "/wifi/config"] →
      find (g_app_handlers F) path m = .NotFound) := by
  have hnodup : (["/", "/socket", "/wifi/config"] : List String).Nodup := by decide
  refine ⟨rfl, hnodup, rfl, ?_, ?_, ?_, rfl, ?_, ?_, ?_, ?_, ?_, ?_, ?_, ?_⟩
  · intro e he
    simp only [g_app_handlers, List.mem_cons, List.mem_singleton, List.not_mem_nil,
      or_false] at he
    rcases he with rfl | rfl | rfl <;> exact ⟨rfl, rfl⟩
  · intro e he
    simp only [g_app_handlers, List.mem_cons, List.mem_singleton, List.not_mem_nil,
      or_false] at he
    rcases he with rfl | rfl | rfl <;> exact ⟨.GET, _, rfl⟩
  · intro e he
    simp only [g_app_handlers, List.mem_cons, List.mem_singleton, List.not_mem_nil,
      or_false] at he
    rcases he with rfl | rfl | rfl <;>
      exact ⟨rfl, or_and_self_left _ _ _, or_and_self_mid _ _ _, or_and_self_right _ _ _⟩
  · intro e he m
    simp only [g_app_handlers, List.mem_cons, List.mem_singleton, List.not_mem_nil,
      or_false] at he
    rcases he with rfl | rfl | rfl <;> cases m <;> simp [g_app_handlers, find, slot]
  · simp [g_app_handlers, find, slot]
  · simp [g_app_handlers, find, slot]
  · simp [g_app_handlers, find, slot]
  · simp [g_app_handlers, find, slot]
  · simp [g_app_handlers, find, slot]
  · simp [g_app_handlers, find, slot]
  · intro path m hp
    simp only [List.mem_cons, List.mem_singleton, List.not_mem_nil, or_false, not_or] at hp
    obtain ⟨h1, h2, h3⟩ := hp
    simp [g_app_handlers, find, Ne.symm h1, Ne.symm h2, Ne.symm h3]

end TC1
